import Mathlib

/-!
Shallow embedding of the electric-vehicle data service (DKSingh1604/unifiedAI):
the pydantic validation schema (`app/schemas/validation.py`), the ETL
normalizer/transform (`app/pipeline/etl.py`), and the five aggregation/query
operations (`app/api/routes.py`).

Modelling conventions:
* Python values that can appear in a cell of the ingested table are modelled by
  the inductive `Value` (string, int, float, `None`, and the pandas missing
  marker `NaN`). Python floats are modelled as exact rationals `ℚ`.
* A pandas row is an association list `List (String × Value)`; a normalized
  record handed to pydantic is the structure `InputRecord` whose fields are
  `Option Value` (`none` = key absent from the dict).
* Fallible operations return `Except`; an HTTP 404 is `QErr.notFound`, an
  HTTP 500 is `QErr.internal`.
* `float(...)` string parsing is modelled for finite decimal literals
  (optional sign, digits, optional fractional part); Python's `round` (which
  rounds half to even) is `pyRound2`.
-/

namespace UnifiedAI

/-- A Python value that can sit in a cell of the ingested table: `None`, the
pandas missing marker `NaN` (a float), a string, an int, or a (finite) float
modelled as an exact rational. -/
inductive Value where
  | pyNone
  | pyNaN
  | pyStr (s : String)
  | pyInt (n : ℤ)
  | pyFloat (q : ℚ)
deriving DecidableEq, Repr

/-- Python `str.strip` on a list of characters: drop whitespace from both ends. -/
def stripChars (l : List Char) : List Char :=
  ((l.dropWhile Char.isWhitespace).reverse.dropWhile Char.isWhitespace).reverse

/-- Python `str.strip()` (whitespace only, as used by the validators). -/
def pyStrip (s : String) : String :=
  String.mk (stripChars s.data)

/-- Python `str.upper()` (ASCII case mapping suffices for this data set). -/
def pyUpper (s : String) : String :=
  String.mk (s.data.map Char.toUpper)

/-- `v.strip().upper()` — the combination used by `normalize_strings`. -/
def stripUpper (s : String) : String :=
  pyUpper (pyStrip s)

/-- `needle` is a prefix of `hay` (character lists). -/
def isPrefixCL : List Char → List Char → Bool
  | [], _ => true
  | _ :: _, [] => false
  | a :: as, b :: bs => a == b && isPrefixCL as bs

/-- `needle` occurs as a contiguous substring of `hay` (character lists). -/
def containsCL (needle : List Char) : List Char → Bool
  | [] => isPrefixCL needle []
  | c :: cs => isPrefixCL needle (c :: cs) || containsCL needle cs

/-- Python's `sub in s` substring test (also models the unanchored
`$regexMatch` used by the trends aggregation). -/
def strContains (hay sub : String) : Bool :=
  containsCL sub.data hay.data

/-- Python `str()` of a `Value` (`str(None) = "None"`, `str(nan) = "nan"`);
the float case is a stand-in decimal-free rendering, only its stringness
matters to the pipeline. -/
def pyToStr : Value → String
  | .pyNone => "None"
  | .pyNaN => "nan"
  | .pyStr s => s
  | .pyInt n => toString n
  | .pyFloat q => toString q

/-- Decimal digits of a character list, as a number (`none` if any
non-digit or the list is empty). -/
def digitsVal : List Char → Option ℕ
  | [] => none
  | l => l.foldl (fun acc c => match acc with
      | none => none
      | some n => if c.isDigit then some (n * 10 + (c.toNat - '0'.toNat)) else none)
      (some 0)

/-- Python `int(s)` for a decimal literal: optional surrounding whitespace,
optional sign, digits. -/
def pyIntParse (s : String) : Option ℤ :=
  let l := stripChars s.data
  match l with
  | '-' :: rest => (digitsVal rest).map (fun n => -(n : ℤ))
  | '+' :: rest => (digitsVal rest).map (fun n => (n : ℤ))
  | _ => (digitsVal l).map (fun n => (n : ℤ))

/-- Digits with an optional single decimal point, as a rational (`none` if
malformed or no digit at all). -/
def decimalVal (l : List Char) : Option ℚ :=
  match l.splitOn '.' with
  | [ip] => (digitsVal ip).map (fun n => (n : ℚ))
  | [ip, fp] =>
      if ip = [] ∧ fp = [] then none
      else
        let ipn : ℕ := ((digitsVal ip).getD 0)
        let ipok : Bool := ip = [] || (digitsVal ip).isSome
        let fpn : ℕ := ((digitsVal fp).getD 0)
        let fpok : Bool := fp = [] || (digitsVal fp).isSome
        if ipok && fpok then some ((ipn : ℚ) + (fpn : ℚ) / (10 : ℚ) ^ fp.length)
        else none
  | _ => none

/-- Python `float(s)` restricted to finite decimal literals: optional
surrounding whitespace, optional sign, digits with an optional decimal
point. -/
def pyFloatParse (s : String) : Option ℚ :=
  let l := stripChars s.data
  match l with
  | '-' :: rest => (decimalVal rest).map (fun q => -q)
  | '+' :: rest => decimalVal rest
  | _ => decimalVal l

/-- Floor of a rational, computed directly (`Int.fdiv` is floor division). -/
def ratFloor (q : ℚ) : ℤ :=
  Int.fdiv q.num (q.den : ℤ)

/-- Python `int(x)` on a float: truncation toward zero. -/
def truncQ (q : ℚ) : ℤ :=
  if 0 ≤ q then ratFloor q else -(ratFloor (-q))

/-- Round a rational to the nearest integer, ties to the even integer —
the rounding Python's builtin `round` performs. -/
def halfEvenRound (x : ℚ) : ℤ :=
  let n := ratFloor x
  let f := x - (n : ℚ)
  if f < 1 / 2 then n
  else if 1 / 2 < f then n + 1
  else if n % 2 = 0 then n else n + 1

/-- Python `round(x, 2)`: round half to even at two decimal places. -/
def pyRound2 (x : ℚ) : ℚ :=
  ((halfEvenRound (x * 100) : ℤ) : ℚ) / 100

/-- Modelled from the spec: "rounded half-up to 2 decimal places" — the
rounding mode the spec asserts, for comparison with `pyRound2`. -/
def roundHalfUpTwo (x : ℚ) : ℚ :=
  ((ratFloor (x * 100 + 1 / 2) : ℤ) : ℚ) / 100

/-- Mean of a list of rationals (`sum / length`; division by zero cannot be
reached by the callers, which guard against empty groups). -/
def ratMean (l : List ℚ) : ℚ :=
  l.sum / (l.length : ℚ)

theorem ratFloor_eq (q : ℚ) : ratFloor q = ⌊q⌋ := by
  rw [ratFloor, Int.fdiv_eq_ediv _ (Int.natCast_nonneg _), Rat.floor_def]

/-! ## Validation schema (`app/schemas/validation.py`, `VehicleRecord`)

`VehicleRecord(**record)`: each field of the input dict is `Option Value`
(`none` = key absent, so the pydantic "Field required" error fires for
required fields). Validation errors are collected per field, in field
declaration order; the error payload here is the name of the offending
field (the pydantic message always names the field). -/

/-- A normalized record as handed to `VehicleRecord(**record)`: canonical
field name → optional raw value. -/
structure InputRecord where
  vin_1_10 : Option Value := none
  county : Option Value := none
  city : Option Value := none
  state : Option Value := none
  postal_code : Option Value := none
  model_year : Option Value := none
  make : Option Value := none
  model : Option Value := none
  electric_vehicle_type : Option Value := none
  cafv_eligibility : Option Value := none
  electric_range : Option Value := none
  base_msrp : Option Value := none
  legislative_district : Option Value := none
  dol_vehicle_id : Option Value := none
  vehicle_location : Option Value := none
  electric_utility : Option Value := none
  census_tract_2020 : Option Value := none
deriving DecidableEq, Repr

/-- A successfully validated vehicle record (the typed pydantic model). -/
structure VehicleRec where
  vin_1_10 : String
  county : String
  city : String
  state : String
  postal_code : Option String
  model_year : ℤ
  make : String
  model : String
  electric_vehicle_type : String
  cafv_eligibility : String
  electric_range : ℤ
  base_msrp : ℤ
  legislative_district : Option String
  dol_vehicle_id : String
  vehicle_location : Option String
  electric_utility : Option String
  census_tract_2020 : Option String
deriving DecidableEq, Repr

/-- `handle_numeric_na` (mode=`before` on `electric_range`/`base_msrp`):
sentinels `"", "NA", "N/A", None` become 0, then `int(float(v))`
(truncation toward zero), any parse failure becomes 0. -/
def handleNumericNA (v : Value) : ℤ :=
  if v = .pyStr "" ∨ v = .pyStr "NA" ∨ v = .pyStr "N/A" ∨ v = .pyNone then 0
  else match v with
    | .pyStr s => match pyFloatParse s with
        | some q => truncQ q
        | none => 0
    | .pyInt n => n
    | .pyFloat q => truncQ q
    | .pyNaN => 0
    | .pyNone => 0

/-- The four accepted vehicle-type spellings of `validate_ev_type`. -/
def validEvTypes : List String :=
  ["BATTERY ELECTRIC VEHICLE (BEV)", "PLUG-IN HYBRID ELECTRIC VEHICLE (PHEV)", "BEV", "PHEV"]

/-- `validate_ev_type` (mode=`after`): keep one of the four accepted
spellings, else canonicalize by substring match, else pass through. -/
def canonEvType (v : String) : String :=
  if v ∈ validEvTypes then v
  else if strContains (pyUpper v) "BEV" then "BATTERY ELECTRIC VEHICLE (BEV)"
  else if strContains (pyUpper v) "PHEV" then "PLUG-IN HYBRID ELECTRIC VEHICLE (PHEV)"
  else v

/-- A required `str` field: the key must be present and hold a string
(pydantic does not coerce non-strings and has no emptiness constraint
here). The error payload is the field name. -/
def checkReqStr (name : String) (v : Option Value) : Except String String :=
  match v with
  | some (.pyStr s) => .ok s
  | _ => .error name

/-- A required `str` field that `normalize_strings` uppercases and strips
(mode=`before`; non-strings pass through the normalizer and then fail the
type check). -/
def checkReqStrNorm (name : String) (v : Option Value) : Except String String :=
  match v with
  | some (.pyStr s) => .ok (stripUpper s)
  | _ => .error name

/-- The `electric_vehicle_type` chain: `normalize_strings` then the type
check then `validate_ev_type`. -/
def checkEvType (v : Option Value) : Except String String :=
  (checkReqStrNorm "electric_vehicle_type" v).map canonEvType

/-- An `Optional[str]` field with default `None`. -/
def checkOptStr (name : String) (v : Option Value) : Except String (Option String) :=
  match v with
  | none => .ok none
  | some .pyNone => .ok none
  | some (.pyStr s) => .ok (some s)
  | some _ => .error name

/-- The `state` field: `str` with default `"WA"`. -/
def checkState (v : Option Value) : Except String String :=
  match v with
  | none => .ok "WA"
  | some (.pyStr s) => .ok s
  | some _ => .error "state"

/-- Lax pydantic parsing of an `int` field: ints, integral floats, and
integer decimal strings. -/
def parseIntValue (v : Value) : Option ℤ :=
  match v with
  | .pyInt n => some n
  | .pyStr s => pyIntParse s
  | .pyFloat q => if q.den = 1 then some q.num else none
  | _ => none

/-- `model_year: int = Field(..., ge=1997, le=2026)`. -/
def checkModelYear (v : Option Value) : Except String ℤ :=
  match v with
  | none => .error "model_year"
  | some w => match parseIntValue w with
      | some n => if 1997 ≤ n ∧ n ≤ 2026 then .ok n else .error "model_year"
      | none => .error "model_year"

/-- `electric_range`/`base_msrp`: default 0 when the key is absent,
otherwise `handle_numeric_na` then the `ge=0` constraint. -/
def checkNumericNA (name : String) (v : Option Value) : Except String ℤ :=
  match v with
  | none => .ok 0
  | some w => if 0 ≤ handleNumericNA w then .ok (handleNumericNA w) else .error name

/-- Name of the failing field, if the check failed. -/
def errName {α : Type} : Except String α → Option String
  | .error n => some n
  | .ok _ => none

/-- Fallback extraction of a check result (only used once the error list
is known to be empty). -/
def exOk {α : Type} (d : α) : Except String α → α
  | .ok a => a
  | .error _ => d

/-- The names of the fields that fail validation, in pydantic field
declaration order. -/
def fieldErrors (r : InputRecord) : List String :=
  [ errName (checkReqStr "vin_1_10" r.vin_1_10),
    errName (checkReqStrNorm "county" r.county),
    errName (checkReqStrNorm "city" r.city),
    errName (checkState r.state),
    errName (checkOptStr "postal_code" r.postal_code),
    errName (checkModelYear r.model_year),
    errName (checkReqStrNorm "make" r.make),
    errName (checkReqStrNorm "model" r.model),
    errName (checkEvType r.electric_vehicle_type),
    errName (checkReqStr "cafv_eligibility" r.cafv_eligibility),
    errName (checkNumericNA "electric_range" r.electric_range),
    errName (checkNumericNA "base_msrp" r.base_msrp),
    errName (checkOptStr "legislative_district" r.legislative_district),
    errName (checkReqStr "dol_vehicle_id" r.dol_vehicle_id),
    errName (checkOptStr "vehicle_location" r.vehicle_location),
    errName (checkOptStr "electric_utility" r.electric_utility),
    errName (checkOptStr "census_tract_2020" r.census_tract_2020) ].filterMap id

/-- The typed record assembled from the per-field checks. -/
def buildVehicleRec (r : InputRecord) : VehicleRec where
  vin_1_10 := exOk "" (checkReqStr "vin_1_10" r.vin_1_10)
  county := exOk "" (checkReqStrNorm "county" r.county)
  city := exOk "" (checkReqStrNorm "city" r.city)
  state := exOk "" (checkState r.state)
  postal_code := exOk none (checkOptStr "postal_code" r.postal_code)
  model_year := exOk 0 (checkModelYear r.model_year)
  make := exOk "" (checkReqStrNorm "make" r.make)
  model := exOk "" (checkReqStrNorm "model" r.model)
  electric_vehicle_type := exOk "" (checkEvType r.electric_vehicle_type)
  cafv_eligibility := exOk "" (checkReqStr "cafv_eligibility" r.cafv_eligibility)
  electric_range := exOk 0 (checkNumericNA "electric_range" r.electric_range)
  base_msrp := exOk 0 (checkNumericNA "base_msrp" r.base_msrp)
  legislative_district := exOk none (checkOptStr "legislative_district" r.legislative_district)
  dol_vehicle_id := exOk "" (checkReqStr "dol_vehicle_id" r.dol_vehicle_id)
  vehicle_location := exOk none (checkOptStr "vehicle_location" r.vehicle_location)
  electric_utility := exOk none (checkOptStr "electric_utility" r.electric_utility)
  census_tract_2020 := exOk none (checkOptStr "census_tract_2020" r.census_tract_2020)

/-- `VehicleRecord(**record)` / `DataPipeline.validate_record`: the typed
record on success, the list of offending field names on failure. -/
def validateRecord (r : InputRecord) : Except (List String) VehicleRec :=
  match fieldErrors r with
  | [] => .ok (buildVehicleRec r)
  | es => .error es

/-! ## Normalizer and transform (`app/pipeline/etl.py`, `DataPipeline`)

A pandas row is an association list column-name → `Value`. The transform
renames headers, counts missing values, applies `fillna` defaults, coerces
the opaque-identifier columns to text, then validates each record. -/

/-- A raw tabular row. -/
abbrev Row : Type := List (String × Value)

/-- `normalize_column_names`: the fixed header → canonical-field mapping. -/
def columnMapping : List (String × String) :=
  [ ("VIN (1-10)", "vin_1_10"),
    ("County", "county"),
    ("City", "city"),
    ("State", "state"),
    ("Postal Code", "postal_code"),
    ("Model Year", "model_year"),
    ("Make", "make"),
    ("Model", "model"),
    ("Electric Vehicle Type", "electric_vehicle_type"),
    ("Clean Alternative Fuel Vehicle (CAFV) Eligibility", "cafv_eligibility"),
    ("Electric Range", "electric_range"),
    ("Base MSRP", "base_msrp"),
    ("Legislative District", "legislative_district"),
    ("DOL Vehicle ID", "dol_vehicle_id"),
    ("Vehicle Location", "vehicle_location"),
    ("Electric Utility", "electric_utility"),
    ("2020 Census Tract", "census_tract_2020") ]

/-- `df.rename(columns=column_mapping)` on a single header. -/
def renameHeader (k : String) : String :=
  (columnMapping.lookup k).getD k

/-- pandas missing marker: `NaN` or `None` (what `isnull`/`fillna` treat
as missing). -/
def isMissingVal : Value → Bool
  | .pyNaN => true
  | .pyNone => true
  | _ => false

/-- The `df.fillna({...})` defaults of `DataPipeline.transform`. -/
def fillnaDefault (k : String) : Option Value :=
  if k = "postal_code" ∨ k = "legislative_district" ∨ k = "vehicle_location" ∨
      k = "electric_utility" ∨ k = "census_tract_2020" then some (.pyStr "")
  else if k = "electric_range" ∨ k = "base_msrp" then some (.pyInt 0)
  else none

/-- The columns forced to text:
`['postal_code', 'legislative_district', 'dol_vehicle_id', 'census_tract_2020']`. -/
def strCoerceCols : List String :=
  ["postal_code", "legislative_district", "dol_vehicle_id", "census_tract_2020"]

/-- `df[field].astype(str).replace('nan', '').replace('', None)` on one value. -/
def strCoerce (v : Value) : Value :=
  let s := pyToStr v
  let s1 := if s = "nan" then "" else s
  if s1 = "" then .pyNone else .pyStr s1

/-- The whole per-value normalization for column `k`: fillna default (when
declared and the value is missing), then text coercion (when `k` is an
opaque-identifier column). -/
def normalizeField (k : String) (v : Value) : Value :=
  let v1 := match fillnaDefault k with
    | some d => if isMissingVal v then d else v
    | none => v
  if k ∈ strCoerceCols then strCoerce v1 else v1

/-- The per-entry normalization of one `(column, value)` cell: header
rename plus value normalization. -/
def normalizeEntry (kv : String × Value) : String × Value :=
  (renameHeader kv.1, normalizeField (renameHeader kv.1) kv.2)

/-- Header renaming of a full row. -/
def renameRow (row : Row) : Row :=
  row.map (fun kv => (renameHeader kv.1, kv.2))

/-- Value normalization (fillna + text coercion) of a renamed row. -/
def fillRow (row : Row) : Row :=
  row.map (fun kv => (kv.1, normalizeField kv.1 kv.2))

/-- The normalization step of `DataPipeline.transform` on one row:
`normalize_column_names`, then `fillna`, then the `astype(str)` coercions. -/
def rowNormalize (row : Row) : Row :=
  fillRow (renameRow row)

/-- `df.to_dict('records')` on a normalized row: the canonical-field dict
handed to `VehicleRecord(**record)`. -/
def toInputRecord (row : Row) : InputRecord where
  vin_1_10 := List.lookup "vin_1_10" row
  county := List.lookup "county" row
  city := List.lookup "city" row
  state := List.lookup "state" row
  postal_code := List.lookup "postal_code" row
  model_year := List.lookup "model_year" row
  make := List.lookup "make" row
  model := List.lookup "model" row
  electric_vehicle_type := List.lookup "electric_vehicle_type" row
  cafv_eligibility := List.lookup "cafv_eligibility" row
  electric_range := List.lookup "electric_range" row
  base_msrp := List.lookup "base_msrp" row
  legislative_district := List.lookup "legislative_district" row
  dol_vehicle_id := List.lookup "dol_vehicle_id" row
  vehicle_location := List.lookup "vehicle_location" row
  electric_utility := List.lookup "electric_utility" row
  census_tract_2020 := List.lookup "census_tract_2020" row

/-- First-occurrence deduplication (insertion order of a Python dict /
the distinct columns of a DataFrame). -/
def firstOccDedup {α : Type} [DecidableEq α] : List α → List α
  | [] => []
  | x :: xs => x :: firstOccDedup (xs.filter (fun y => y ≠ x))
termination_by l => l.length
decreasing_by
  exact Nat.lt_succ_of_le (List.length_filter_le _ _)

/-- `analyze_missing_values`: per-column count of missing values, columns
with a zero count omitted. -/
def missingCounts (rows : List Row) : List (String × ℕ) :=
  let cols := firstOccDedup ((rows.map (fun r => r.map Prod.fst)).flatten)
  cols.filterMap (fun c =>
    let n := rows.countP (fun r => match List.lookup c r with
      | some v => isMissingVal v
      | none => true)
    if n = 0 then none else some (c, n))

/-- `DataQualityReport`. -/
structure QualityReport where
  total_records : ℕ
  valid_records : ℕ
  invalid_records : ℕ
  missing_values : List (String × ℕ)
  validation_errors : List (ℕ × Value × List String)
deriving DecidableEq, Repr

/-- `record.get('vin_1_10', 'UNKNOWN')` for an error-report entry. -/
def vinOf (r : InputRecord) : Value :=
  r.vin_1_10.getD (.pyStr "UNKNOWN")

/-- `DataPipeline.transform`: normalize, count missing values, validate
every record, and build the quality report (keeping the first 100
validation errors). -/
def transform (rows : List Row) : List VehicleRec × QualityReport :=
  let renamed := rows.map renameRow
  let missing := missingCounts renamed
  let recs := (renamed.map fillRow).map toInputRecord
  let valids := recs.filterMap (fun r => (validateRecord r).toOption)
  let verrs := recs.enum.filterMap (fun ie =>
    match validateRecord ie.2 with
    | .ok _ => none
    | .error es => some (ie.1, vinOf ie.2, es))
  (valids,
    { total_records := recs.length
      valid_records := valids.length
      invalid_records := verrs.length
      missing_values := missing
      validation_errors := verrs.take 100 })

/-! ## Aggregation / query engine (`app/api/routes.py`)

The stored record set is a `List VehicleRec` (the persisted
`model_dump()`s). Each endpoint is a pure function returning
`Except QErr _`; `QErr.notFound` is the HTTP 404 raised when a query
matched nothing, `QErr.internal` the HTTP 500 of the catch-all handler
(never produced by the embedded logic itself, which models the
fault-free store). -/

/-- Query failure: the distinguished 404 versus the internal 500. -/
inductive QErr where
  | notFound (msg : String)
  | internal (msg : String)
deriving DecidableEq, Repr

/-- `GET /vehicles/summary` response. -/
structure SummaryResponse where
  total_vehicles : ℕ
  vehicles_by_type : List (String × ℕ)
  top_10_makes : List (String × ℕ)
  average_electric_range : ℚ
  eligibility_summary : List (String × ℕ)
deriving DecidableEq, Repr

/-- `$group` + `$sort {count: -1}`: count the records per key and sort by
count descending (group-key enumeration order is unspecified in the store;
first-occurrence order is used as the deterministic stand-in). -/
def countsByKey (keys : List String) : List (String × ℕ) :=
  List.insertionSort (fun a b => b.2 ≤ a.2)
    ((firstOccDedup keys).map (fun k => (k, keys.count k)))

/-- The documents with `electric_range > 0` (the `$match` of the
average-range pipeline). -/
def posRangeDocs (docs : List VehicleRec) : List VehicleRec :=
  docs.filter (fun d => 0 < d.electric_range)

/-- The exact (pre-rounding) mean electric range over documents with
positive range. -/
def exactMeanPosRange (docs : List VehicleRec) : ℚ :=
  ratMean ((posRangeDocs docs).map (fun d => (d.electric_range : ℚ)))

/-- `get_summary`. -/
def getSummary (docs : List VehicleRec) : SummaryResponse where
  total_vehicles := docs.length
  vehicles_by_type := countsByKey (docs.map (fun d => d.electric_vehicle_type))
  top_10_makes := (countsByKey (docs.map (fun d => d.make))).take 10
  average_electric_range :=
    if posRangeDocs docs = [] then 0 else pyRound2 (exactMeanPosRange docs)
  eligibility_summary := countsByKey (docs.map (fun d => d.cafv_eligibility))

/-- The sortable fields of the county listing. -/
inductive SortField where
  | model_year
  | make
  | model
deriving DecidableEq, Repr

/-- Sort order of the county listing. -/
inductive SortOrder where
  | asc
  | desc
deriving DecidableEq, Repr

/-- Ascending comparison on the selected sort field. -/
def fieldLe (f : SortField) (a b : VehicleRec) : Bool :=
  match f with
  | .model_year => a.model_year ≤ b.model_year
  | .make => a.make ≤ b.make
  | .model => a.model ≤ b.model

/-- The store's sort comparator: the field comparison, flipped for
descending order. -/
def sortRelB (f : SortField) (o : SortOrder) (a b : VehicleRec) : Bool :=
  match o with
  | .asc => fieldLe f a b
  | .desc => fieldLe f b a

/-- Python truthiness of the optional `model_year` query parameter:
`None` and `0` are falsy. -/
def truthyOptInt (o : Option ℤ) : Bool :=
  match o with
  | some y => y ≠ 0
  | none => false

/-- The county query document: exact (uppercased) county match plus the
`model_year` filter added only when the parameter is truthy. -/
def countyQuery (county_name : String) (model_year : Option ℤ) (d : VehicleRec) : Bool :=
  d.county == pyUpper county_name &&
    (if truthyOptInt model_year then d.model_year == model_year.getD 0 else true)

/-- `GET /vehicles/county/{county_name}` response. -/
structure CountyVehiclesResponse where
  county : String
  total_count : ℕ
  page : ℕ
  page_size : ℕ
  total_pages : ℕ
  vehicles : List VehicleRec
deriving DecidableEq, Repr

/-- `get_vehicles_by_county`. -/
def getVehiclesByCounty (docs : List VehicleRec) (county_name : String)
    (page page_size : ℕ) (model_year : Option ℤ)
    (sort_by : SortField) (sort_order : SortOrder) :
    Except QErr CountyVehiclesResponse :=
  let matched := docs.filter (countyQuery county_name model_year)
  let total_count := matched.length
  if total_count = 0 then
    .error (.notFound ("No vehicles found in county: " ++ county_name))
  else
    let total_pages := (total_count + page_size - 1) / page_size
    let skip := (page - 1) * page_size
    let sorted := List.insertionSort (fun a b => sortRelB sort_by sort_order a b = true) matched
    .ok
      { county := pyUpper county_name
        total_count := total_count
        page := page
        page_size := page_size
        total_pages := total_pages
        vehicles := (sorted.drop skip).take page_size }

/-- Per-model statistics of `get_models_by_make`. -/
structure ModelStatistics where
  model : String
  count : ℕ
  average_electric_range : ℚ
deriving DecidableEq, Repr

/-- `GET /vehicles/make/{make}/models` response. -/
structure MakeModelsResponse where
  make : String
  total_models : ℕ
  most_popular_model : String
  most_popular_count : ℕ
  models : List ModelStatistics
deriving DecidableEq, Repr

/-- The documents of one make (the `$match` stage of `get_models_by_make`). -/
def makeDocs (docs : List VehicleRec) (make : String) : List VehicleRec :=
  docs.filter (fun d => d.make == pyUpper make)

/-- The members of one model group of `get_models_by_make`. -/
def modelGroupDocs (docs : List VehicleRec) (make k : String) : List VehicleRec :=
  (makeDocs docs make).filter (fun d => d.model == k)

/-- The `ModelStatistics` entry of one model group. -/
def mkModelStat (docs : List VehicleRec) (make k : String) : ModelStatistics where
  model := k
  count := (modelGroupDocs docs make k).length
  average_electric_range :=
    pyRound2 (ratMean ((modelGroupDocs docs make k).map (fun d => (d.electric_range : ℚ))))

/-- The aggregation result list of `get_models_by_make`: one entry per
distinct model, sorted by count descending. -/
def modelResults (docs : List VehicleRec) (make : String) : List ModelStatistics :=
  List.insertionSort (fun a b => b.count ≤ a.count)
    ((firstOccDedup ((makeDocs docs make).map (fun d => d.model))).map (mkModelStat docs make))

/-- `get_models_by_make`: group the make's documents by model, count and
average each group, sort by count descending. -/
def getModelsByMake (docs : List VehicleRec) (make : String) :
    Except QErr MakeModelsResponse :=
  match modelResults docs make with
  | [] => .error (.notFound ("No vehicles found for make: " ++ make))
  | r0 :: rest =>
      .ok
        { make := pyUpper make
          total_models := (r0 :: rest).length
          most_popular_model := r0.model
          most_popular_count := r0.count
          models := r0 :: rest }

/-! ### `POST /vehicles/analyze` -/

/-- `AnalyzeFilters`. `model_years` models the optional year-range dict:
`none` for an absent or empty (falsy) dict, otherwise its optional
`start`/`end` entries. `min_electric_range = some 0` is falsy in Python
and therefore adds no filter. -/
structure AnalyzeFilters where
  makes : Option (List String) := none
  model_years : Option (Option ℤ × Option ℤ) := none
  min_electric_range : Option ℤ := none
  counties : Option (List String) := none
  vehicle_types : Option (List String) := none
deriving DecidableEq, Repr

/-- Python truthiness of an optional list (`None` and `[]` are falsy). -/
def truthyOptList (o : Option (List String)) : Bool :=
  match o with
  | some l => l ≠ []
  | none => false

/-- The conjunctive `$match` document built by `analyze_vehicles`. -/
def analyzeMatch (f : AnalyzeFilters) (d : VehicleRec) : Bool :=
  (if truthyOptList f.makes then ((f.makes.getD []).map pyUpper).contains d.make else true) &&
  (match f.model_years with
    | some (s?, e?) =>
        (match s? with | some s => s ≤ d.model_year | none => true) &&
        (match e? with | some e => d.model_year ≤ e | none => true)
    | none => true) &&
  (if truthyOptInt f.min_electric_range then (f.min_electric_range.getD 0) ≤ d.electric_range
   else true) &&
  (if truthyOptList f.counties then ((f.counties.getD []).map pyUpper).contains d.county
   else true) &&
  (if truthyOptList f.vehicle_types then
      ((f.vehicle_types.getD []).map pyUpper).contains d.electric_vehicle_type
   else true)

/-- The `group_by` field of an analyze request. -/
inductive GroupField where
  | county
  | make
  | model_year
  | vehicle_type
deriving DecidableEq, Repr

/-- A `$group` key. Grouping on `"$vehicle_type"` references a field the
documents do not have, so every document lands in the single `null`
group. -/
inductive GroupKey where
  | kStr (s : String)
  | kInt (n : ℤ)
  | kNull
deriving DecidableEq, Repr

/-- The group key of a document for the chosen `group_by` field. -/
def groupKeyOf (gb : GroupField) (d : VehicleRec) : GroupKey :=
  match gb with
  | .county => .kStr d.county
  | .make => .kStr d.make
  | .model_year => .kInt d.model_year
  | .vehicle_type => .kNull

/-- Python `str(doc["_id"])` on a group key. -/
def groupKeyStr : GroupKey → String
  | .kStr s => s
  | .kInt n => toString n
  | .kNull => "None"

/-- `f"{v['make']} {v['model']}"`. -/
def vehKey (p : String × String) : String :=
  p.1 ++ " " ++ p.2

/-- One step of building the `vehicle_counts` dict: increment an existing
key in place, else append the new key (Python dict insertion order). -/
def bumpCount (acc : List (String × ℕ)) (k : String) : List (String × ℕ) :=
  match acc with
  | [] => [(k, 1)]
  | (k', n) :: rest => if k' = k then (k', n + 1) :: rest else (k', n) :: bumpCount rest k

/-- The `vehicle_counts` dict of `analyze_vehicles`, as an insertion-ordered
association list. -/
def vehicleCounts (pairs : List (String × String)) : List (String × ℕ) :=
  pairs.foldl (fun acc p => bumpCount acc (vehKey p)) []

/-- Python `max(items, key=lambda x: x[1])`: the first item attaining the
maximal second component (later items replace only on strictly greater). -/
def maxBySnd (c : String × ℕ) (cs : List (String × ℕ)) : String × ℕ :=
  cs.foldl (fun best x => if best.2 < x.2 then x else best) c

/-- `most_common` of one analyze group: the key of the maximal entry of
`vehicle_counts`, `None` when the group has no members. -/
def mostCommonVehicle (pairs : List (String × String)) : Option String :=
  match vehicleCounts pairs with
  | [] => none
  | c :: cs => some (maxBySnd c cs).1

/-- The specification-level reading of the tie-break: among the keys in
order of first occurrence, the first one whose occurrence count is
maximal. -/
def specMostCommon (pairs : List (String × String)) : Option String :=
  let ks := pairs.map vehKey
  let ds := firstOccDedup ks
  ds.find? (fun k => ks.count k == (ds.map (fun k' => ks.count k')).foldl max 0)

/-- Per-group statistics of `analyze_vehicles`. -/
structure GroupStatistics where
  group_value : String
  count : ℕ
  average_electric_range : ℚ
  most_common_vehicle : Option String
deriving DecidableEq, Repr

/-- `POST /vehicles/analyze` response. -/
structure AnalyzeResponse where
  group_by : GroupField
  total_matching_vehicles : ℕ
  groups : List GroupStatistics
deriving DecidableEq, Repr

/-- The documents passing the analyze `$match` stage. -/
def analyzeDocs (docs : List VehicleRec) (f : AnalyzeFilters) : List VehicleRec :=
  docs.filter (analyzeMatch f)

/-- The members of one analyze group. -/
def analyzeGroupDocs (docs : List VehicleRec) (f : AnalyzeFilters) (gb : GroupField)
    (k : GroupKey) : List VehicleRec :=
  (analyzeDocs docs f).filter (fun d => groupKeyOf gb d == k)

/-- The `GroupStatistics` entry of one analyze group. -/
def mkGroupStat (docs : List VehicleRec) (f : AnalyzeFilters) (gb : GroupField)
    (k : GroupKey) : GroupStatistics where
  group_value := groupKeyStr k
  count := (analyzeGroupDocs docs f gb k).length
  average_electric_range :=
    pyRound2 (ratMean ((analyzeGroupDocs docs f gb k).map (fun d => (d.electric_range : ℚ))))
  most_common_vehicle :=
    mostCommonVehicle ((analyzeGroupDocs docs f gb k).map (fun d => (d.make, d.model)))

/-- The aggregation result list of `analyze_vehicles`: one entry per
distinct group key, sorted by count descending. -/
def analyzeResults (docs : List VehicleRec) (f : AnalyzeFilters) (gb : GroupField) :
    List GroupStatistics :=
  List.insertionSort (fun a b => b.count ≤ a.count)
    ((firstOccDedup ((analyzeDocs docs f).map (groupKeyOf gb))).map (mkGroupStat docs f gb))

/-- `analyze_vehicles`: conjunctive filter, group by the chosen field,
count/average/most-common per group, groups sorted by count descending. -/
def analyzeVehicles (docs : List VehicleRec) (f : AnalyzeFilters) (gb : GroupField) :
    Except QErr AnalyzeResponse :=
  match analyzeResults docs f gb with
  | [] => .error (.notFound "No vehicles match the specified filters")
  | r0 :: rest =>
      .ok
        { group_by := gb
          total_matching_vehicles := ((r0 :: rest).map (fun g => g.count)).sum
          groups := r0 :: rest }

/-! ### `GET /vehicles/trends` -/

/-- Per-year trend entry. -/
structure YearTrend where
  model_year : ℤ
  vehicle_count : ℕ
  average_electric_range : ℚ
  bev_count : ℕ
  phev_count : ℕ
  bev_percentage : ℚ
  phev_percentage : ℚ
deriving DecidableEq, Repr

/-- `GET /vehicles/trends` response. -/
structure TrendsResponse where
  trends : List YearTrend
  overall_growth_rate : Option ℚ
  range_improvement_rate : Option ℚ
deriving DecidableEq, Repr

/-- The distinct model years of the store, ascending (`$group` by
`model_year`, `$sort {_id: 1}`). -/
def trendYears (docs : List VehicleRec) : List ℤ :=
  List.insertionSort (fun a b => a ≤ b) (docs.map (fun d => d.model_year)).dedup

/-- The documents of one model year. -/
def yearDocs (docs : List VehicleRec) (y : ℤ) : List VehicleRec :=
  docs.filter (fun d => d.model_year == y)

/-- The trend entry of one model year: count, rounded mean range, BEV/PHEV
counts by substring match and their percentages of the BEV+PHEV total. -/
def mkYearTrend (docs : List VehicleRec) (y : ℤ) : YearTrend :=
  let g := yearDocs docs y
  let bev := (g.filter (fun d => strContains d.electric_vehicle_type "BEV")).length
  let phev := (g.filter (fun d => strContains d.electric_vehicle_type "PHEV")).length
  let tot := bev + phev
  { model_year := y
    vehicle_count := g.length
    average_electric_range := pyRound2 (ratMean (g.map (fun d => (d.electric_range : ℚ))))
    bev_count := bev
    phev_count := phev
    bev_percentage := pyRound2 (if 0 < tot then (bev : ℚ) / (tot : ℚ) * 100 else 0)
    phev_percentage := pyRound2 (if 0 < tot then (phev : ℚ) / (tot : ℚ) * 100 else 0) }

/-- `round(x, 2) if x else None`: a rate of exactly 0 is falsy in Python
and is therefore dropped along with `None`. -/
def pyTruthyRound : Option ℚ → Option ℚ
  | none => none
  | some q => if q = 0 then none else some (pyRound2 q)

/-- `get_trends`: per-year trend entries sorted by year, plus the overall
growth and range-improvement rates computed from the first and last
entries. -/
def getTrends (docs : List VehicleRec) : Except QErr TrendsResponse :=
  let trends := (trendYears docs).map (mkYearTrend docs)
  match trends with
  | [] => .error (.notFound "No trend data available")
  | t0 :: rest =>
      let tn := rest.getLastD t0
      let years_diff : ℤ := tn.model_year - t0.model_year
      let ogr : Option ℚ :=
        if rest = [] then none
        else if 0 < years_diff ∧ 0 < t0.vehicle_count then
          some (((tn.vehicle_count : ℚ) - (t0.vehicle_count : ℚ)) / (t0.vehicle_count : ℚ) /
            (years_diff : ℚ) * 100)
        else none
      let rir : Option ℚ :=
        if rest = [] then none
        else if 0 < t0.average_electric_range then
          some ((tn.average_electric_range - t0.average_electric_range) /
            t0.average_electric_range / (years_diff : ℚ) * 100)
        else none
      .ok
        { trends := t0 :: rest
          overall_growth_rate := pyTruthyRound ogr
          range_improvement_rate := pyTruthyRound rir }

/-- The trend list of a trends result (empty on failure). -/
def trendsOf (e : Except QErr TrendsResponse) : List YearTrend :=
  match e with
  | .ok r => r.trends
  | .error _ => []

/-- The overall growth rate of a trends result. -/
def growthOf (e : Except QErr TrendsResponse) : Option ℚ :=
  match e with
  | .ok r => r.overall_growth_rate
  | .error _ => none

/-- The range improvement rate of a trends result. -/
def rirOf (e : Except QErr TrendsResponse) : Option ℚ :=
  match e with
  | .ok r => r.range_improvement_rate
  | .error _ => none

/-! ## Auxiliary definitions for the statements, and concrete instances -/

/-- The required text fields of the schema (named by C1). -/
def requiredTextFields : List String :=
  ["vin_1_10", "county", "city", "make", "model", "electric_vehicle_type",
   "cafv_eligibility", "dol_vehicle_id"]

/-- Projection of a required text field of an `InputRecord` by name. -/
def reqFieldVal (r : InputRecord) (f : String) : Option Value :=
  if f = "vin_1_10" then r.vin_1_10
  else if f = "county" then r.county
  else if f = "city" then r.city
  else if f = "make" then r.make
  else if f = "model" then r.model
  else if f = "electric_vehicle_type" then r.electric_vehicle_type
  else if f = "cafv_eligibility" then r.cafv_eligibility
  else if f = "dol_vehicle_id" then r.dol_vehicle_id
  else none

/-- The supplied value is a present string. -/
def isStrVal : Option Value → Bool
  | some (.pyStr _) => true
  | _ => false

/-- A fully valid normalized input record (the shape of the repository's
own passing test fixture). -/
def okRec : InputRecord where
  vin_1_10 := some (.pyStr "5YJSA1E26K")
  county := some (.pyStr "King")
  city := some (.pyStr "Seattle")
  state := some (.pyStr "WA")
  postal_code := some (.pyStr "98101")
  model_year := some (.pyInt 2023)
  make := some (.pyStr "TESLA")
  model := some (.pyStr "MODEL S")
  electric_vehicle_type := some (.pyStr "Battery Electric Vehicle (BEV)")
  cafv_eligibility := some (.pyStr "Eligible")
  electric_range := some (.pyInt 405)
  base_msrp := some (.pyInt 0)
  legislative_district := some (.pyStr "43")
  dol_vehicle_id := some (.pyStr "12345")
  vehicle_location := some .pyNone
  electric_utility := some .pyNone
  census_tract_2020 := some .pyNone

/-- `okRec` with a whitespace-only `county` (empty after trimming). -/
def c1Rec : InputRecord :=
  { okRec with county := some (.pyStr "   ") }

/-- The validated record the schema produces for `c1Rec`: note the empty
canonical `county`. -/
def c1Out : VehicleRec where
  vin_1_10 := "5YJSA1E26K"
  county := ""
  city := "SEATTLE"
  state := "WA"
  postal_code := some "98101"
  model_year := 2023
  make := "TESLA"
  model := "MODEL S"
  electric_vehicle_type := "BATTERY ELECTRIC VEHICLE (BEV)"
  cafv_eligibility := "Eligible"
  electric_range := 405
  base_msrp := 0
  legislative_district := some "43"
  dol_vehicle_id := "12345"
  vehicle_location := none
  electric_utility := none
  census_tract_2020 := none

/-- `okRec` with a non-string `county` (an int), for the C1 witness. -/
def c1WRec : InputRecord :=
  { okRec with county := some (.pyInt 7) }

/-- `okRec` with the numeric string `"-5"` as `electric_range`. -/
def c2Rec : InputRecord :=
  { okRec with electric_range := some (.pyStr "-5") }

/-- A canonical stored document (as persisted after validation). -/
def teslaDoc : VehicleRec where
  vin_1_10 := "5YJSA1E26K"
  county := "KING"
  city := "SEATTLE"
  state := "WA"
  postal_code := some "98101"
  model_year := 2023
  make := "TESLA"
  model := "MODEL S"
  electric_vehicle_type := "BATTERY ELECTRIC VEHICLE (BEV)"
  cafv_eligibility := "Eligible"
  electric_range := 405
  base_msrp := 0
  legislative_district := some "43"
  dol_vehicle_id := "12345"
  vehicle_location := none
  electric_utility := none
  census_tract_2020 := none

/-- A one-document store for the C5 witness. -/
def c5Docs : List VehicleRec := [teslaDoc]

/-- An analyze request with no filters set. -/
def emptyFilters : AnalyzeFilters := {}

/-- A two-year store with one document per year (equal counts, so the
growth-rate numerator is 0). -/
def c3Docs : List VehicleRec := [teslaDoc, { teslaDoc with model_year := 2024 }]

/-- Eight documents with positive ranges summing to 9: the exact mean
9/8 = 1.125 is a rounding tie at two decimal places. -/
def c7Docs : List VehicleRec :=
  [{ teslaDoc with electric_range := 1 }, { teslaDoc with electric_range := 1 },
   { teslaDoc with electric_range := 1 }, { teslaDoc with electric_range := 1 },
   { teslaDoc with electric_range := 1 }, { teslaDoc with electric_range := 1 },
   { teslaDoc with electric_range := 1 }, { teslaDoc with electric_range := 2 }]

/-- The make-models response of the one-document store for `"Tesla"`. -/
def c7MResp : MakeModelsResponse where
  make := pyUpper "Tesla"
  total_models := [mkModelStat c5Docs "Tesla" "MODEL S"].length
  most_popular_model := (mkModelStat c5Docs "Tesla" "MODEL S").model
  most_popular_count := (mkModelStat c5Docs "Tesla" "MODEL S").count
  models := [mkModelStat c5Docs "Tesla" "MODEL S"]

/-- The analyze response of the one-document store grouped by make. -/
def c10Resp : AnalyzeResponse where
  group_by := .make
  total_matching_vehicles :=
    ([mkGroupStat c5Docs emptyFilters .make (.kStr "TESLA")].map (fun g => g.count)).sum
  groups := [mkGroupStat c5Docs emptyFilters .make (.kStr "TESLA")]

/-- A raw row whose `DOL Vehicle ID` cell is missing (pandas `NaN`). -/
def c8Row : Row := [("DOL Vehicle ID", .pyNaN)]

/-- A raw row with a present `DOL Vehicle ID`, for the C8 witness. -/
def c8GoodRow : Row :=
  [("DOL Vehicle ID", .pyStr "12345"), ("Electric Range", .pyNaN), ("County", .pyStr "King")]

/-! ## Helper lemmas -/

theorem upperAux (m : ℕ) (h1 : 97 ≤ m) (h2 : m ≤ 122) :
    (Char.ofNat (m - 32)).toUpper = Char.ofNat (m - 32) := by
  interval_cases m <;> decide

theorem toUpper_idem (c : Char) : c.toUpper.toUpper = c.toUpper := by
  by_cases h : c.toNat ≥ 97 ∧ c.toNat ≤ 122
  · have h1 : c.toUpper = Char.ofNat (c.toNat - 32) := by
      show (let n := c.toNat; if n ≥ 97 ∧ n ≤ 122 then Char.ofNat (n - 32) else c) = _
      simp [h]
    rw [h1]
    exact upperAux c.toNat h.1 h.2
  · have h1 : c.toUpper = c := by
      show (let n := c.toNat; if n ≥ 97 ∧ n ≤ 122 then Char.ofNat (n - 32) else c) = _
      simp [h]
    rw [h1, h1]

theorem pyUpper_pyUpper (x : String) : pyUpper (pyUpper x) = pyUpper x := by
  unfold pyUpper
  refine congrArg String.mk ?_
  show ((x.data.map Char.toUpper).map Char.toUpper) = x.data.map Char.toUpper
  rw [List.map_map]
  exact List.map_congr_left (fun c _ => toUpper_idem c)

theorem pyUpper_stripUpper (s : String) : pyUpper (stripUpper s) = stripUpper s :=
  pyUpper_pyUpper (pyStrip s)

theorem length_filterMap_partition {α β γ : Type} (f : α → Option β) (g : ℕ × α → Option γ)
    (h : ∀ i a, (f a).isSome ↔ (g (i, a)).isNone) :
    ∀ (l : List α) (n : ℕ),
      (l.filterMap f).length + ((List.enumFrom n l).filterMap g).length = l.length := by
  intro l
  induction l with
  | nil => intro n; rfl
  | cons a t ih =>
    intro n
    rw [List.enumFrom_cons, List.filterMap_cons, List.filterMap_cons]
    cases hfa : f a with
    | some b =>
        have hg : g (n, a) = none := by
          have h2 := (h n a).mp (by rw [hfa]; rfl)
          rwa [Option.isNone_iff_eq_none] at h2
        rw [hg]
        have := ih (n + 1)
        simp only [List.length_cons]
        omega
    | none =>
        have hg : ∃ c, g (n, a) = some c := by
          cases hgc : g (n, a) with
          | some c => exact ⟨c, rfl⟩
          | none =>
              have h2 := (h n a).mpr (by rw [hgc]; rfl)
              rw [hfa] at h2
              exact absurd h2 (by simp)
        obtain ⟨c, hc⟩ := hg
        rw [hc]
        have := ih (n + 1)
        simp only [List.length_cons]
        omega

/-! ## Claims -/

/-- C4: for every input `electric_vehicle_type` string, the validator keeps
the trimmed-and-uppercased value when it is one of the two canonical
long-form labels or the two short codes; otherwise it maps a value
containing `"BEV"` to the canonical BEV label, else a value containing
`"PHEV"` to the canonical PHEV label, and otherwise leaves the value
unchanged — and in every case succeeds (no validation failure). -/
theorem c4_ev_type_canonicalization (s : String) :
    checkEvType (some (.pyStr s)) =
      .ok (if stripUpper s ∈ validEvTypes then stripUpper s
           else if strContains (stripUpper s) "BEV" then "BATTERY ELECTRIC VEHICLE (BEV)"
           else if strContains (stripUpper s) "PHEV" then "PLUG-IN HYBRID ELECTRIC VEHICLE (PHEV)"
           else stripUpper s) := by
  show Except.map canonEvType (.ok (stripUpper s)) = _
  rw [Except.map]
  refine congrArg Except.ok ?_
  unfold canonEvType
  rw [pyUpper_stripUpper]

/-- C9: in the county listing, a `model_year` filter value of `0` is falsy
in Python and is therefore not added to the query: the result is
identical to the query without a `model_year` filter. -/
theorem c9_model_year_zero_ignored (docs : List VehicleRec) (county_name : String)
    (page page_size : ℕ) (sort_by : SortField) (sort_order : SortOrder) :
    getVehiclesByCounty docs county_name page page_size (some 0) sort_by sort_order =
      getVehiclesByCounty docs county_name page page_size none sort_by sort_order := rfl

/-- C6: for every pipeline run, the quality report satisfies
`valid_records + invalid_records = total_records`. -/
theorem c6_quality_report_invariant (rows : List Row) :
    (transform rows).2.valid_records + (transform rows).2.invalid_records =
      (transform rows).2.total_records := by
  unfold transform
  refine length_filterMap_partition _ _ ?_ _ 0
  intro i r
  cases h : validateRecord r <;> simp [h, Except.toOption]

theorem validateRecord_error_of_mem (r : InputRecord) (f : String)
    (h : f ∈ fieldErrors r) :
    ∃ es, validateRecord r = .error es ∧ f ∈ es := by
  refine ⟨fieldErrors r, ?_, h⟩
  unfold validateRecord
  cases he : fieldErrors r with
  | nil => rw [he] at h; cases h
  | cons a t => rfl

theorem errName_checkReqStr (name : String) (v : Option Value)
    (h : isStrVal v = false) :
    errName (checkReqStr name v) = some name := by
  cases v with
  | none => rfl
  | some w => cases w <;> first
      | rfl
      | (exfalso; simp [isStrVal] at h)

theorem errName_checkReqStrNorm (name : String) (v : Option Value)
    (h : isStrVal v = false) :
    errName (checkReqStrNorm name v) = some name := by
  cases v with
  | none => rfl
  | some w => cases w <;> first
      | rfl
      | (exfalso; simp [isStrVal] at h)

theorem errName_checkEvType (v : Option Value)
    (h : isStrVal v = false) :
    errName (checkEvType v) = some "electric_vehicle_type" := by
  cases v with
  | none => rfl
  | some w => cases w <;> first
      | rfl
      | (exfalso; simp [isStrVal] at h)

/-- C1 (amended): validation fails, naming the offending field, whenever a
required text field is missing or holds a non-string value; an empty or
whitespace-only string, however, passes the schema (see
`c1_counterexample`). -/
theorem c1_required_text_fields (r : InputRecord) (f : String)
    (hf : f ∈ requiredTextFields)
    (hv : isStrVal (reqFieldVal r f) = false) :
    ∃ es, validateRecord r = .error es ∧ f ∈ es := by
  refine validateRecord_error_of_mem r f ?_
  fin_cases hf <;>
    [ (have he := errName_checkReqStr "vin_1_10" r.vin_1_10 (by simpa [reqFieldVal] using hv));
      (have he := errName_checkReqStrNorm "county" r.county (by simpa [reqFieldVal] using hv));
      (have he := errName_checkReqStrNorm "city" r.city (by simpa [reqFieldVal] using hv));
      (have he := errName_checkReqStrNorm "make" r.make (by simpa [reqFieldVal] using hv));
      (have he := errName_checkReqStrNorm "model" r.model (by simpa [reqFieldVal] using hv));
      (have he := errName_checkEvType r.electric_vehicle_type
        (by simpa [reqFieldVal] using hv));
      (have he := errName_checkReqStr "cafv_eligibility" r.cafv_eligibility
        (by simpa [reqFieldVal] using hv));
      (have he := errName_checkReqStr "dol_vehicle_id" r.dol_vehicle_id
        (by simpa [reqFieldVal] using hv)) ] <;>
  · unfold fieldErrors
    refine List.mem_filterMap.mpr ⟨some _, ?_, rfl⟩
    rw [← he]
    simp

/-- C1 witness: a concrete record with an int-valued `county` is rejected
with an error naming `county`. -/
theorem c1_required_text_fields_witness :
    "county" ∈ requiredTextFields ∧ isStrVal (reqFieldVal c1WRec "county") = false ∧
      ∃ es, validateRecord c1WRec = .error es ∧ "county" ∈ es :=
  ⟨by decide, by decide, c1_required_text_fields c1WRec "county" (by decide) (by decide)⟩

/-- C1 counterexample: a required text field that is present but
whitespace-only (empty after trimming) does NOT fail validation — the
record is accepted, with the empty string as its canonical `county`. -/
theorem c1_counterexample :
    validateRecord c1Rec = .ok c1Out ∧ pyStrip "   " = "" :=
  ⟨rfl, rfl⟩

/-- C2 (amended): the numeric coercion maps the sentinels
(`""`, `"NA"`, `"N/A"`, `None`) and every unparsable string to 0, but a
parsable numeric input keeps its sign, so a negative input coerces to a
negative integer and the `ge=0` constraint then rejects the field —
which happens exactly when the coerced value is negative. -/
theorem c2_numeric_coercion (v : Value) (name : String) (w : Option Value)
    (hsent : v = .pyStr "" ∨ v = .pyStr "NA" ∨ v = .pyStr "N/A" ∨ v = .pyNone) :
    handleNumericNA v = 0 ∧
    (∀ s : String, pyFloatParse s = none → handleNumericNA (.pyStr s) = 0) ∧
    (errName (checkNumericNA name w) = some name ↔
      ∃ u, w = some u ∧ handleNumericNA u < 0) := by
  refine ⟨?_, ?_, ?_⟩
  · unfold handleNumericNA
    rw [if_pos hsent]
  · intro s hs
    unfold handleNumericNA
    by_cases h : (Value.pyStr s) = .pyStr "" ∨ (Value.pyStr s) = .pyStr "NA" ∨
        (Value.pyStr s) = .pyStr "N/A" ∨ (Value.pyStr s) = .pyNone
    · rw [if_pos h]
    · rw [if_neg h]
      simp [hs]
  · cases w with
    | none => simp [checkNumericNA, errName]
    | some u =>
        by_cases h : 0 ≤ handleNumericNA u
        · have hr : errName (checkNumericNA name (some u)) = none := by
            unfold checkNumericNA
            simp [h, errName]
          rw [hr]
          constructor
          · intro hx; cases hx
          · rintro ⟨u', hu, hlt⟩
            cases hu
            omega
        · have hr : errName (checkNumericNA name (some u)) = some name := by
            unfold checkNumericNA
            simp [h, errName]
          rw [hr]
          constructor
          · intro _; exact ⟨u, rfl, by omega⟩
          · intro _; rfl

/-- C2 witness: the sentinel `"NA"` coerces to 0, the unparsable `"abc"`
coerces to 0, and the `electric_range` check rejects exactly the negative
coercions. -/
theorem c2_numeric_coercion_witness :
    ((Value.pyStr "NA") = .pyStr "" ∨ (Value.pyStr "NA") = .pyStr "NA" ∨
      (Value.pyStr "NA") = .pyStr "N/A" ∨ (Value.pyStr "NA") = .pyNone) ∧
    (handleNumericNA (.pyStr "NA") = 0 ∧
      (∀ s : String, pyFloatParse s = none → handleNumericNA (.pyStr s) = 0) ∧
      (errName (checkNumericNA "electric_range" (some (.pyStr "-5"))) = some "electric_range" ↔
        ∃ u, (some (Value.pyStr "-5") : Option Value) = some u ∧ handleNumericNA u < 0)) :=
  ⟨by simp,
    c2_numeric_coercion (.pyStr "NA") "electric_range" (some (.pyStr "-5")) (by simp)⟩

/-- C2 counterexample: the input `"-5"` coerces to the negative integer
`-5`, and the `ge=0` constraint on `electric_range` therefore rejects a
full, otherwise valid record — the coercion is not non-negative and the
constraint can fail. -/
theorem c2_counterexample :
    handleNumericNA (.pyStr "-5") = -5 ∧
      validateRecord c2Rec = .error ["electric_range"] :=
  ⟨by decide, rfl⟩

theorem insertionSort_eq_nil_iff {α : Type} (r : α → α → Prop) [DecidableRel r]
    (l : List α) : List.insertionSort r l = [] ↔ l = [] := by
  constructor
  · intro h
    have hp := List.perm_insertionSort r l
    rw [h] at hp
    exact hp.symm.eq_nil
  · intro h
    rw [h]
    rfl

theorem firstOccDedup_eq_nil_iff {α : Type} [DecidableEq α] (l : List α) :
    firstOccDedup l = [] ↔ l = [] := by
  cases l with
  | nil => simp [firstOccDedup]
  | cons x xs => simp [firstOccDedup]

theorem modelResults_eq_nil_iff (docs : List VehicleRec) (make : String) :
    modelResults docs make = [] ↔ makeDocs docs make = [] := by
  unfold modelResults
  rw [insertionSort_eq_nil_iff, List.map_eq_nil_iff, firstOccDedup_eq_nil_iff, List.map_eq_nil_iff]

theorem analyzeResults_eq_nil_iff (docs : List VehicleRec) (f : AnalyzeFilters)
    (gb : GroupField) :
    analyzeResults docs f gb = [] ↔ analyzeDocs docs f = [] := by
  unfold analyzeResults
  rw [insertionSort_eq_nil_iff, List.map_eq_nil_iff, firstOccDedup_eq_nil_iff, List.map_eq_nil_iff]

theorem countyTrichotomy (docs : List VehicleRec) (county_name : String)
    (page page_size : ℕ) (model_year : Option ℤ)
    (sort_by : SortField) (sort_order : SortOrder) :
    (docs.filter (countyQuery county_name model_year) = [] ∧
      getVehiclesByCounty docs county_name page page_size model_year sort_by sort_order =
        .error (.notFound ("No vehicles found in county: " ++ county_name))) ∨
    (docs.filter (countyQuery county_name model_year) ≠ [] ∧
      ∃ resp, getVehiclesByCounty docs county_name page page_size model_year sort_by sort_order =
        .ok resp) := by
  by_cases hq : docs.filter (countyQuery county_name model_year) = []
  · left
    refine ⟨hq, ?_⟩
    unfold getVehiclesByCounty
    rw [hq]
    rfl
  · right
    refine ⟨hq, ?_⟩
    cases he : getVehiclesByCounty docs county_name page page_size model_year sort_by
        sort_order with
    | ok resp => exact ⟨resp, rfl⟩
    | error err =>
        exfalso
        unfold getVehiclesByCounty at he
        rw [if_neg (by simpa [List.length_eq_zero] using hq)] at he
        exact Except.noConfusion he

theorem modelsTrichotomy (docs : List VehicleRec) (make : String) :
    (makeDocs docs make = [] ∧
      getModelsByMake docs make =
        .error (.notFound ("No vehicles found for make: " ++ make))) ∨
    (makeDocs docs make ≠ [] ∧ ∃ resp, getModelsByMake docs make = .ok resp) := by
  by_cases hq : makeDocs docs make = []
  · left
    refine ⟨hq, ?_⟩
    unfold getModelsByMake
    rw [(modelResults_eq_nil_iff docs make).mpr hq]
  · right
    refine ⟨hq, ?_⟩
    have hres : modelResults docs make ≠ [] := by
      rw [Ne, modelResults_eq_nil_iff]
      exact hq
    cases he : getModelsByMake docs make with
    | ok resp => exact ⟨resp, rfl⟩
    | error err =>
        exfalso
        cases hr : modelResults docs make with
        | nil => exact absurd hr hres
        | cons r0 rest =>
            unfold getModelsByMake at he
            rw [hr] at he
            exact Except.noConfusion he

theorem analyzeTrichotomy (docs : List VehicleRec) (f : AnalyzeFilters) (gb : GroupField) :
    (analyzeDocs docs f = [] ∧
      analyzeVehicles docs f gb = .error (.notFound "No vehicles match the specified filters")) ∨
    (analyzeDocs docs f ≠ [] ∧ ∃ resp, analyzeVehicles docs f gb = .ok resp) := by
  by_cases hq : analyzeDocs docs f = []
  · left
    refine ⟨hq, ?_⟩
    unfold analyzeVehicles
    rw [(analyzeResults_eq_nil_iff docs f gb).mpr hq]
  · right
    refine ⟨hq, ?_⟩
    have hres : analyzeResults docs f gb ≠ [] := by
      rw [Ne, analyzeResults_eq_nil_iff]
      exact hq
    cases he : analyzeVehicles docs f gb with
    | ok resp => exact ⟨resp, rfl⟩
    | error err =>
        exfalso
        cases hr : analyzeResults docs f gb with
        | nil => exact absurd hr hres
        | cons r0 rest =>
            unfold analyzeVehicles at he
            rw [hr] at he
            exact Except.noConfusion he

/-- C5: each filtered query operation reports the distinguished NotFound
result exactly when no stored record matches its filter, never reports an
internal failure, and returns a computed result whenever some record
matches. -/
theorem c5_not_found (docs : List VehicleRec) (county_name : String)
    (page page_size : ℕ) (model_year : Option ℤ)
    (sort_by : SortField) (sort_order : SortOrder)
    (make : String) (f : AnalyzeFilters) (gb : GroupField) :
    ((∃ m, getVehiclesByCounty docs county_name page page_size model_year sort_by sort_order =
        .error (.notFound m)) ↔ docs.filter (countyQuery county_name model_year) = []) ∧
    (∀ m, getVehiclesByCounty docs county_name page page_size model_year sort_by sort_order ≠
        .error (.internal m)) ∧
    (docs.filter (countyQuery county_name model_year) ≠ [] →
      ∃ resp, getVehiclesByCounty docs county_name page page_size model_year sort_by sort_order =
        .ok resp) ∧
    ((∃ m, getModelsByMake docs make = .error (.notFound m)) ↔ makeDocs docs make = []) ∧
    (∀ m, getModelsByMake docs make ≠ .error (.internal m)) ∧
    (makeDocs docs make ≠ [] → ∃ resp, getModelsByMake docs make = .ok resp) ∧
    ((∃ m, analyzeVehicles docs f gb = .error (.notFound m)) ↔ analyzeDocs docs f = []) ∧
    (∀ m, analyzeVehicles docs f gb ≠ .error (.internal m)) ∧
    (analyzeDocs docs f ≠ [] → ∃ resp, analyzeVehicles docs f gb = .ok resp) := by
  rcases countyTrichotomy docs county_name page page_size model_year sort_by sort_order with
    ⟨hq, hop⟩ | ⟨hq, resp, hop⟩ <;>
  rcases modelsTrichotomy docs make with ⟨hqm, hopm⟩ | ⟨hqm, respm, hopm⟩ <;>
  rcases analyzeTrichotomy docs f gb with ⟨hqa, hopa⟩ | ⟨hqa, respa, hopa⟩ <;>
  · rw [hop, hopm, hopa]
    refine ⟨?_, ?_, ?_, ?_, ?_, ?_, ?_, ?_, ?_⟩ <;>
      simp_all

/-- C5 witness: on a concrete one-document store, an analyze request with
`min_electric_range = 100000` yields NotFound, and the make query for
`"Tesla"` returns a computed result. -/
theorem c5_not_found_witness :
    (∃ m, analyzeVehicles c5Docs { min_electric_range := some 100000 } GroupField.make =
        .error (.notFound m)) ∧
    (∃ resp, getModelsByMake c5Docs "Tesla" = .ok resp) := by
  constructor
  · exact (c5_not_found c5Docs "KING" 1 20 none .model_year .desc "Tesla"
      { min_electric_range := some 100000 } .make).2.2.2.2.2.2.1.mpr (by decide)
  · exact (c5_not_found c5Docs "KING" 1 20 none .model_year .desc "Tesla"
      { min_electric_range := some 100000 } .make).2.2.2.2.2.1 (by decide)

theorem lookup_mem_snd (k c : String) :
    ∀ l : List (String × String), List.lookup k l = some c → c ∈ l.map Prod.snd := by
  intro l
  induction l with
  | nil => intro h; cases h
  | cons p t ih =>
      intro h
      rw [List.lookup_cons] at h
      cases hk : k == p.1 with
      | true =>
          rw [hk] at h
          simp only [Option.some.injEq] at h
          exact List.mem_map.mpr ⟨p, List.mem_cons_self _ _, h⟩
      | false =>
          rw [hk] at h
          rcases List.mem_map.mp (ih h) with ⟨q, hq, hqc⟩
          exact List.mem_map.mpr ⟨q, List.mem_cons_of_mem _ hq, hqc⟩

theorem renameHeader_idem (k : String) : renameHeader (renameHeader k) = renameHeader k := by
  unfold renameHeader
  cases h : columnMapping.lookup k with
  | none => simp [h]
  | some c =>
      simp only [Option.getD_some]
      have hc : c ∈ columnMapping.map Prod.snd := lookup_mem_snd k c columnMapping h
      have hnone : columnMapping.lookup c = none := by
        fin_cases hc <;> decide
      rw [hnone]
      rfl

theorem rowNormalize_eq_map (row : Row) : rowNormalize row = row.map normalizeEntry := by
  unfold rowNormalize fillRow renameRow
  rw [List.map_map]
  rfl

theorem strCoerce_cases (v : Value) :
    strCoerce v = .pyNone ∨ ∃ s, strCoerce v = .pyStr s ∧ s ≠ "" ∧ s ≠ "nan" := by
  unfold strCoerce
  by_cases h1 : pyToStr v = "nan"
  · left; simp [h1]
  · by_cases h2 : pyToStr v = ""
    · left; simp [h1, h2]
    · right
      exact ⟨pyToStr v, by simp [h1, h2], h2, h1⟩

theorem strCoerce_fix (s : String) (h1 : s ≠ "") (h2 : s ≠ "nan") :
    strCoerce (.pyStr s) = .pyStr s := by
  unfold strCoerce pyToStr
  simp [h1, h2]

theorem fillnaDefault_not_missing (k : String) (d : Value) (h : fillnaDefault k = some d) :
    isMissingVal d = false := by
  unfold fillnaDefault at h
  by_cases h1 : k = "postal_code" ∨ k = "legislative_district" ∨ k = "vehicle_location" ∨
      k = "electric_utility" ∨ k = "census_tract_2020"
  · rw [if_pos h1] at h
    cases h
    rfl
  · rw [if_neg h1] at h
    by_cases h2 : k = "electric_range" ∨ k = "base_msrp"
    · rw [if_pos h2] at h
      cases h
      rfl
    · rw [if_neg h2] at h
      cases h

theorem normalizeField_output_dol (v : Value) :
    normalizeField "dol_vehicle_id" v = strCoerce v := by
  simp only [normalizeField]
  rw [show fillnaDefault "dol_vehicle_id" = none from by decide]
  rw [if_pos (show "dol_vehicle_id" ∈ strCoerceCols from by decide)]

theorem normalizeField_plain (k : String) (w : Value) (hsc : k ∉ strCoerceCols)
    (hm : isMissingVal w = false) : normalizeField k w = w := by
  simp only [normalizeField]
  rw [if_neg hsc]
  cases hfd : fillnaDefault k with
  | none => rfl
  | some d =>
      show (if isMissingVal w = true then d else w) = w
      rw [if_neg (by simp [hm])]

theorem normalizeField_idem_iff (k : String) (v : Value) :
    normalizeField k (normalizeField k v) = normalizeField k v ↔
      ¬(k = "dol_vehicle_id" ∧ normalizeField k v = .pyNone) := by
  by_cases hdol : k = "dol_vehicle_id"
  · subst hdol
    rw [normalizeField_output_dol, normalizeField_output_dol]
    rcases strCoerce_cases v with hc | ⟨s, hc, hs1, hs2⟩
    · rw [hc]
      constructor
      · intro h
        exact absurd h (by decide)
      · intro hn
        exact (hn ⟨rfl, rfl⟩).elim
    · rw [hc, strCoerce_fix s hs1 hs2]
      constructor
      · intro _ hand
        exact absurd hand.2 (by simp)
      · intro _
        rfl
  · have hni : ¬(k = "dol_vehicle_id" ∧ normalizeField k v = Value.pyNone) :=
      fun hand => hdol hand.1
    refine iff_of_true ?_ hni
    by_cases hsc : k ∈ strCoerceCols
    · have h3 : k = "postal_code" ∨ k = "legislative_district" ∨ k = "census_tract_2020" := by
        simp only [strCoerceCols, List.mem_cons, List.not_mem_nil, or_false] at hsc
        rcases hsc with h | h | h | h
        · exact Or.inl h
        · exact Or.inr (Or.inl h)
        · exact absurd h hdol
        · exact Or.inr (Or.inr h)
      have hfd : fillnaDefault k = some (.pyStr "") := by
        rcases h3 with h | h | h <;> subst h <;> decide
      have hw : normalizeField k v = strCoerce (if isMissingVal v then Value.pyStr "" else v) := by
        simp only [normalizeField]
        rw [hfd, if_pos hsc]
      rcases strCoerce_cases (if isMissingVal v then Value.pyStr "" else v) with
        hc | ⟨s, hc, hs1, hs2⟩
      · rw [hw, hc]
        simp only [normalizeField]
        rw [hfd, if_pos hsc]
        decide
      · rw [hw, hc]
        simp only [normalizeField]
        rw [hfd, if_pos hsc]
        exact strCoerce_fix s hs1 hs2
    · cases hfd : fillnaDefault k with
      | none =>
          have hwv : normalizeField k v = v := by
            simp only [normalizeField]
            rw [hfd, if_neg hsc]
          rw [hwv]
          exact hwv
      | some d =>
          have hdm := fillnaDefault_not_missing k d hfd
          have hwv : normalizeField k v = if isMissingVal v then d else v := by
            simp only [normalizeField]
            rw [hfd, if_neg hsc]
          have hwm : isMissingVal (normalizeField k v) = false := by
            rw [hwv]
            by_cases hm : isMissingVal v
            · rw [if_pos hm]; exact hdm
            · rw [if_neg hm]; simpa using hm
          exact normalizeField_plain k (normalizeField k v) hsc hwm

theorem normalizeEntry_idem_iff (kv : String × Value) :
    normalizeEntry (normalizeEntry kv) = normalizeEntry kv ↔
      ¬((normalizeEntry kv).1 = "dol_vehicle_id" ∧ (normalizeEntry kv).2 = .pyNone) := by
  obtain ⟨k, v⟩ := kv
  show (renameHeader (renameHeader k),
      normalizeField (renameHeader (renameHeader k)) (normalizeField (renameHeader k) v)) =
      (renameHeader k, normalizeField (renameHeader k) v) ↔
      ¬(renameHeader k = "dol_vehicle_id" ∧ normalizeField (renameHeader k) v = .pyNone)
  rw [renameHeader_idem]
  constructor
  · intro h
    exact (normalizeField_idem_iff (renameHeader k) v).mp (congrArg Prod.snd h)
  · intro h
    rw [Prod.mk.injEq]
    exact ⟨rfl, (normalizeField_idem_iff (renameHeader k) v).mpr h⟩

/-- C8 (amended): normalization is idempotent exactly on the rows whose
normalized `dol_vehicle_id` cell is not null; a row whose raw
`dol_vehicle_id` is missing (NaN), empty, or the text `"nan"` normalizes
that cell to null, and a second normalization coerces the null to the
string `"None"`. -/
theorem c8_normalize_idempotent (row : Row) :
    rowNormalize (rowNormalize row) = rowNormalize row ↔
      ∀ kv ∈ rowNormalize row, ¬(kv.1 = "dol_vehicle_id" ∧ kv.2 = .pyNone) := by
  rw [rowNormalize_eq_map (rowNormalize row), rowNormalize_eq_map row, List.map_map,
    List.map_eq_map_iff]
  constructor
  · intro h kv hkv
    rcases List.mem_map.mp hkv with ⟨kv0, hkv0, rfl⟩
    exact (normalizeEntry_idem_iff kv0).mp (h kv0 hkv0)
  · intro h kv hkv
    exact (normalizeEntry_idem_iff kv).mpr
      (h (normalizeEntry kv) (List.mem_map.mpr ⟨kv, hkv, rfl⟩))

/-- C8 witness: a row with a present `DOL Vehicle ID` normalizes
idempotently. -/
theorem c8_normalize_idempotent_witness :
    rowNormalize (rowNormalize c8GoodRow) = rowNormalize c8GoodRow :=
  (c8_normalize_idempotent c8GoodRow).mpr (by decide)

/-- C8 counterexample: a row whose `DOL Vehicle ID` is missing is changed
by a second normalization — the first pass nulls the cell, the second
turns the null into the text `"None"`. -/
theorem c8_counterexample :
    rowNormalize (rowNormalize c8Row) ≠ rowNormalize c8Row ∧
      rowNormalize c8Row = [("dol_vehicle_id", .pyNone)] ∧
      rowNormalize (rowNormalize c8Row) = [("dol_vehicle_id", .pyStr "None")] := by
  refine ⟨by decide, by decide, by decide⟩

theorem foldl_max_init (l : List ℕ) :
    ∀ a b, l.foldl max (max a b) = max a (l.foldl max b) := by
  induction l with
  | nil => intro a b; rfl
  | cons x t ih =>
      intro a b
      show t.foldl max (max (max a b) x) = max a (t.foldl max (max b x))
      rw [Nat.max_assoc, ih a (max b x)]

theorem le_foldl_max (l : List ℕ) : ∀ b, b ≤ l.foldl max b := by
  induction l with
  | nil => intro b; exact le_rfl
  | cons x t ih =>
      intro b
      exact le_trans (Nat.le_max_left b x) (ih (max b x))

theorem mem_le_foldl_max (l : List ℕ) (y : ℕ) (hy : y ∈ l) :
    ∀ b, y ≤ l.foldl max b := by
  induction l with
  | nil => cases hy
  | cons x t ih =>
      intro b
      rcases List.mem_cons.mp hy with rfl | hmem
      · exact le_trans (Nat.le_max_right b y) (le_foldl_max t (max b y))
      · exact ih hmem (max b x)

theorem bumpCount_mem (k₀ : String) :
    ∀ (D : List String) (c : String → ℕ), D.Nodup → k₀ ∈ D →
      bumpCount (D.map fun k => (k, c k)) k₀ =
        D.map (fun k => (k, if k = k₀ then c k + 1 else c k)) := by
  intro D
  induction D with
  | nil => intro c _ hk; cases hk
  | cons d ds ih =>
      intro c hn hk
      show bumpCount ((d, c d) :: ds.map fun k => (k, c k)) k₀ = _
      unfold bumpCount
      by_cases hd : d = k₀
      · rw [if_pos hd]
        subst hd
        rw [List.map_cons, if_pos rfl]
        refine congrArg _ ?_
        refine (List.map_congr_left ?_).symm
        intro k hkds
        have hne : k ≠ d := fun hcontra => by
          subst hcontra
          exact (List.nodup_cons.mp hn).1 hkds
        rw [if_neg hne]
      · rw [if_neg hd]
        have hk' : k₀ ∈ ds := by
          rcases List.mem_cons.mp hk with h | h
          · exact absurd h.symm hd
          · exact h
        rw [ih c (List.nodup_cons.mp hn).2 hk', List.map_cons, if_neg hd]

theorem bumpCount_not_mem (k₀ : String) :
    ∀ (D : List String) (c : String → ℕ), k₀ ∉ D →
      bumpCount (D.map fun k => (k, c k)) k₀ =
        (D ++ [k₀]).map (fun k => (k, if k = k₀ then 1 else c k)) := by
  intro D
  induction D with
  | nil =>
      intro c _
      show [(k₀, 1)] = [(k₀, if k₀ = k₀ then 1 else c k₀)]
      rw [if_pos rfl]
  | cons d ds ih =>
      intro c hk
      have hd : d ≠ k₀ := fun hcontra => hk (hcontra ▸ List.mem_cons_self d ds)
      show bumpCount ((d, c d) :: ds.map fun k => (k, c k)) k₀ = _
      unfold bumpCount
      rw [if_neg hd]
      rw [ih c (fun hmem => hk (List.mem_cons_of_mem d hmem))]
      rw [List.cons_append, List.map_cons, if_neg hd]

theorem foldl_bump_general :
    ∀ (ks D : List String) (c : String → ℕ), D.Nodup →
      List.foldl bumpCount (D.map fun k => (k, c k)) ks =
        (D ++ firstOccDedup (ks.filter (fun k => !(decide (k ∈ D))))).map
          (fun k => (k, (if k ∈ D then c k else 0) + ks.count k)) := by
  intro ks
  induction ks with
  | nil =>
      intro D c _
      simp only [List.foldl_nil, List.filter_nil, firstOccDedup, List.append_nil,
        List.count_nil, Nat.add_zero]
      refine List.map_congr_left ?_
      intro k hk
      rw [if_pos hk]
  | cons k₀ ks' ih =>
      intro D c hn
      rw [List.foldl_cons]
      by_cases hk : k₀ ∈ D
      · rw [bumpCount_mem k₀ D c hn hk]
        rw [ih D (fun k => if k = k₀ then c k + 1 else c k) hn]
        have hfil : (k₀ :: ks').filter (fun k => !(decide (k ∈ D))) =
            ks'.filter (fun k => !(decide (k ∈ D))) := by
          rw [List.filter_cons]
          simp [hk]
        rw [← hfil]
        refine List.map_congr_left ?_
        intro k hkmem
        refine congrArg _ ?_
        rw [List.count_cons]
        by_cases hkk : k = k₀
        · have hkD2 : k ∈ D := by rw [hkk]; exact hk
          rw [if_pos hkD2, if_pos hkk, if_pos hkD2,
            if_pos (show (k₀ == k) = true from by simp [hkk])]
          omega
        · rw [if_neg (show ¬((k₀ == k) = true) from by simp [Ne.symm hkk])]
          by_cases hkD : k ∈ D
          · rw [if_pos hkD, if_pos hkD, if_neg hkk]
            omega
          · rw [if_neg hkD, if_neg hkD]
            omega
      · rw [bumpCount_not_mem k₀ D c hk]
        rw [ih (D ++ [k₀]) (fun k => if k = k₀ then 1 else c k)
          (by
            rw [List.nodup_append]
            exact ⟨hn, List.nodup_singleton k₀, by
              intro a ha hb
              rw [List.mem_singleton] at hb
              subst hb
              exact hk ha⟩)]
        have hfil : (k₀ :: ks').filter (fun k => !(decide (k ∈ D))) =
            k₀ :: ks'.filter (fun k => !(decide (k ∈ D))) := by
          rw [List.filter_cons]
          simp [hk]
        rw [hfil]
        have hfil2 : ks'.filter (fun k => !(decide (k ∈ D ++ [k₀]))) =
            (ks'.filter (fun k => !(decide (k ∈ D)))).filter (fun k => !(decide (k = k₀))) := by
          rw [List.filter_filter]
          refine List.filter_congr ?_
          intro k _
          by_cases h1 : k ∈ D
          · simp [h1]
          · by_cases h2 : k = k₀ <;> simp [h1, h2]
        have hfo : firstOccDedup (k₀ :: ks'.filter (fun k => !(decide (k ∈ D)))) =
            k₀ :: firstOccDedup ((ks'.filter (fun k => !(decide (k ∈ D)))).filter
              (fun y => y ≠ k₀)) := by
          rw [firstOccDedup]
        rw [hfo]
        have hfil3 : (ks'.filter (fun k => !(decide (k ∈ D)))).filter (fun y => y ≠ k₀) =
            (ks'.filter (fun k => !(decide (k ∈ D)))).filter (fun k => !(decide (k = k₀))) := by
          refine List.filter_congr ?_
          intro k _
          by_cases h2 : k = k₀ <;> simp [h2]
        rw [hfil3, ← hfil2]
        rw [show D ++ k₀ :: firstOccDedup (ks'.filter (fun k => !(decide (k ∈ D ++ [k₀])))) =
          (D ++ [k₀]) ++ firstOccDedup (ks'.filter (fun k => !(decide (k ∈ D ++ [k₀])))) from by
            rw [List.append_assoc]
            rfl]
        refine List.map_congr_left ?_
        intro k hkmem
        refine congrArg _ ?_
        rw [List.count_cons]
        by_cases hkk : k = k₀
        · have hkD2 : k ∉ D := by rw [hkk]; exact hk
          rw [if_pos (show k ∈ D ++ [k₀] from by simp [hkk]), if_pos hkk, if_neg hkD2,
            if_pos (show (k₀ == k) = true from by simp [hkk])]
          omega
        · rw [if_neg (show ¬((k₀ == k) = true) from by simp [Ne.symm hkk])]
          by_cases hkD : k ∈ D
          · rw [if_pos (show k ∈ D ++ [k₀] from by simp [hkD]), if_neg hkk, if_pos hkD]
            omega
          · rw [if_neg (show k ∉ D ++ [k₀] from by simp [hkD, hkk]), if_neg hkD]
            omega

theorem vehicleCounts_eq (pairs : List (String × String)) :
    vehicleCounts pairs = (firstOccDedup (pairs.map vehKey)).map
      (fun k => (k, (pairs.map vehKey).count k)) := by
  unfold vehicleCounts
  rw [← List.foldl_map vehKey bumpCount pairs []]
  have h := foldl_bump_general (pairs.map vehKey) [] (fun _ => 0) List.nodup_nil
  simpa using h

theorem maxBySnd_spec :
    ∀ (cs : List (String × ℕ)) (c : String × ℕ),
      (c :: cs).find?
          (fun x => x.2 == ((c :: cs).map Prod.snd).foldl max 0) =
        some (maxBySnd c cs) := by
  intro cs
  induction cs with
  | nil =>
      intro c
      show List.find? _ [c] = some c
      rw [List.find?_cons]
      rw [show (c.2 == ([c].map Prod.snd).foldl max 0) = true from by
        simp [Nat.zero_max]]
  | cons x cs' ih =>
      intro c
      have hM : ((c :: x :: cs').map Prod.snd).foldl max 0 =
          (((if c.2 < x.2 then x else c) :: cs').map Prod.snd).foldl max 0 := by
        show List.foldl max (max (max 0 c.2) x.2) (cs'.map Prod.snd) =
          List.foldl max (max 0 (if c.2 < x.2 then x else c).2) (cs'.map Prod.snd)
        refine congrArg (fun b => List.foldl max b (cs'.map Prod.snd)) ?_
        rcases Nat.lt_or_ge c.2 x.2 with h | h
        · rw [if_pos h, Nat.max_assoc, Nat.max_eq_right (le_of_lt h)]
        · rw [if_neg (Nat.not_lt.mpr h), Nat.max_assoc, Nat.max_eq_left h]
      have hMax : ∀ y ∈ (c :: x :: cs').map Prod.snd,
          y ≤ ((c :: x :: cs').map Prod.snd).foldl max 0 :=
        fun y hy => mem_le_foldl_max _ y hy 0
      show List.find? (fun p => p.2 == ((c :: x :: cs').map Prod.snd).foldl max 0)
          (c :: x :: cs') = some (maxBySnd (if c.2 < x.2 then x else c) cs')
      rcases Nat.lt_or_ge c.2 x.2 with h | h
      · -- c is strictly beaten by x, so c cannot attain the maximum
        have hc : (c.2 == ((c :: x :: cs').map Prod.snd).foldl max 0) = false := by
          have hx : x.2 ≤ ((c :: x :: cs').map Prod.snd).foldl max 0 :=
            hMax x.2 (by simp)
          simp only [beq_eq_false_iff_ne, ne_eq]
          omega
        rw [List.find?_cons, hc]
        rw [show (if c.2 < x.2 then x else c) = x from if_pos h]
        show List.find? (fun p => p.2 == ((c :: x :: cs').map Prod.snd).foldl max 0)
          (x :: cs') = some (maxBySnd x cs')
        have hpred : (fun p : String × ℕ =>
            p.2 == ((c :: x :: cs').map Prod.snd).foldl max 0) =
            (fun p : String × ℕ => p.2 == ((x :: cs').map Prod.snd).foldl max 0) := by
          funext p
          rw [hM, if_pos h]
        rw [hpred]
        exact ih x
      · rw [show (if c.2 < x.2 then x else c) = c from if_neg (Nat.not_lt.mpr h)]
        have hMeq : ((c :: cs').map Prod.snd).foldl max 0 =
            ((c :: x :: cs').map Prod.snd).foldl max 0 := by
          rw [hM, if_neg (Nat.not_lt.mpr h)]
        by_cases hc : (c.2 == ((c :: x :: cs').map Prod.snd).foldl max 0) = true
        · -- c itself attains the maximum: both runs keep c
          have hrec := ih c
          rw [hMeq] at hrec
          rw [List.find?_cons, hc] at hrec
          rw [List.find?_cons, hc]
          exact hrec
        · -- c does not attain the maximum; x (with x.2 ≤ c.2) cannot either
          have hc' : (c.2 == ((c :: x :: cs').map Prod.snd).foldl max 0) = false := by
            simpa using hc
          have hx : (x.2 == ((c :: x :: cs').map Prod.snd).foldl max 0) = false := by
            have hcle : c.2 ≤ ((c :: x :: cs').map Prod.snd).foldl max 0 :=
              hMax c.2 (by simp)
            simp only [beq_eq_false_iff_ne, ne_eq] at hc' ⊢
            omega
          have hrec := ih c
          rw [hMeq] at hrec
          rw [List.find?_cons, hc'] at hrec
          rw [List.find?_cons, hc', List.find?_cons, hx]
          exact hrec

theorem mostCommon_eq_spec (pairs : List (String × String)) :
    mostCommonVehicle pairs = specMostCommon pairs := by
  simp only [mostCommonVehicle, specMostCommon]
  rw [vehicleCounts_eq]
  cases hD : firstOccDedup (pairs.map vehKey) with
  | nil => simp
  | cons d ds =>
      rw [List.map_cons]
      show some (maxBySnd (d, (pairs.map vehKey).count d)
          (ds.map fun k => (k, (pairs.map vehKey).count k))).1 = _
      have hspec := maxBySnd_spec (ds.map fun k => (k, (pairs.map vehKey).count k))
        (d, (pairs.map vehKey).count d)
      have hspec2 : ((d :: ds).map fun k => (k, (pairs.map vehKey).count k)).find?
          (fun x => x.2 ==
            ((((d :: ds).map fun k => (k, (pairs.map vehKey).count k)).map
              Prod.snd).foldl max 0)) =
          some (maxBySnd (d, (pairs.map vehKey).count d)
            (ds.map fun k => (k, (pairs.map vehKey).count k))) := hspec
      rw [List.find?_map, List.map_map] at hspec2
      rcases Option.map_eq_some'.mp hspec2 with ⟨kstar, hfind, hmax⟩
      have h2 : (d :: ds).find? (fun k => (pairs.map vehKey).count k ==
          (((d :: ds).map fun k' => (pairs.map vehKey).count k').foldl max 0)) =
          some kstar := hfind
      rw [h2, ← hmax]

/-- C10: the most_common_vehicle tie-break is deterministic first
occurrence — `mostCommonVehicle` always returns the first key, in the
order the group's members were collected, whose occurrence count is
maximal (`specMostCommon`), and every group reported by the analyze
operation carries exactly that value for its member list. -/
theorem c10_most_common_first_occurrence :
    (∀ pairs : List (String × String), mostCommonVehicle pairs = specMostCommon pairs) ∧
    (∀ (docs : List VehicleRec) (f : AnalyzeFilters) (gb : GroupField)
        (resp : AnalyzeResponse), analyzeVehicles docs f gb = .ok resp →
      ∀ g ∈ resp.groups, ∃ k : GroupKey, g = mkGroupStat docs f gb k ∧
        g.most_common_vehicle =
          specMostCommon ((analyzeGroupDocs docs f gb k).map fun d => (d.make, d.model))) := by
  constructor
  · exact mostCommon_eq_spec
  · intro docs f gb resp hok g hg
    have hgroups : resp.groups = analyzeResults docs f gb := by
      unfold analyzeVehicles at hok
      cases hr : analyzeResults docs f gb with
      | nil =>
          rw [hr] at hok
          cases hok
      | cons r0 rest =>
          rw [hr] at hok
          rw [← Except.ok.inj hok]
    rw [hgroups] at hg
    unfold analyzeResults at hg
    have hg2 : g ∈ (firstOccDedup ((analyzeDocs docs f).map (groupKeyOf gb))).map
        (mkGroupStat docs f gb) :=
      ((List.perm_insertionSort _ _).mem_iff).mp hg
    rcases List.mem_map.mp hg2 with ⟨k, hk, rfl⟩
    refine ⟨k, rfl, ?_⟩
    show mostCommonVehicle ((analyzeGroupDocs docs f gb k).map fun d => (d.make, d.model)) = _
    exact mostCommon_eq_spec _

theorem c10_analyze_eval :
    analyzeVehicles c5Docs emptyFilters GroupField.make = .ok c10Resp := by
  unfold analyzeVehicles
  rw [show analyzeResults c5Docs emptyFilters GroupField.make =
      [mkGroupStat c5Docs emptyFilters .make (.kStr "TESLA")] from by
    unfold analyzeResults
    rw [show analyzeDocs c5Docs emptyFilters = c5Docs from by decide]
    rw [show firstOccDedup (c5Docs.map (groupKeyOf GroupField.make)) =
      [GroupKey.kStr "TESLA"] from by
        rw [show c5Docs.map (groupKeyOf GroupField.make) = [GroupKey.kStr "TESLA"] from by
          decide]
        simp [firstOccDedup]]
    rfl]
  rfl

/-- C10 witness: on the one-document store, the analyze operation reports
the group for make `"TESLA"` with the first-occurrence most-common
characterization. -/
theorem c10_most_common_first_occurrence_witness :
    analyzeVehicles c5Docs emptyFilters GroupField.make = .ok c10Resp ∧
    mostCommonVehicle [("TESLA", "MODEL S")] = specMostCommon [("TESLA", "MODEL S")] ∧
    ∃ k : GroupKey, mkGroupStat c5Docs emptyFilters GroupField.make (GroupKey.kStr "TESLA") =
        mkGroupStat c5Docs emptyFilters GroupField.make k ∧
      (mkGroupStat c5Docs emptyFilters GroupField.make
          (GroupKey.kStr "TESLA")).most_common_vehicle =
        specMostCommon ((analyzeGroupDocs c5Docs emptyFilters GroupField.make k).map
          fun d => (d.make, d.model)) := by
  refine ⟨c10_analyze_eval, c10_most_common_first_occurrence.1 _, ?_⟩
  exact c10_most_common_first_occurrence.2 c5Docs emptyFilters GroupField.make c10Resp
    c10_analyze_eval (mkGroupStat c5Docs emptyFilters GroupField.make (GroupKey.kStr "TESLA"))
    (List.mem_singleton.mpr rfl)

theorem getLastQ {α : Type} (a : α) (l : List α) : (a :: l).getLast? = some (l.getLastD a) := by
  induction l generalizing a with
  | nil => rfl
  | cons b t ih =>
      rw [List.getLast?_cons_cons, ih b, List.getLastD_cons]

theorem getLastD_mem {α : Type} (l : List α) (d : α) (h : l ≠ []) : l.getLastD d ∈ l := by
  induction l generalizing d with
  | nil => exact absurd rfl h
  | cons b t ih =>
      rw [List.getLastD_cons]
      cases t with
      | nil => exact List.mem_singleton.mpr rfl
      | cons c u => exact List.mem_cons_of_mem b (ih b (List.cons_ne_nil c u))

theorem trendYears_sorted (docs : List VehicleRec) :
    List.Sorted (· ≤ ·) (trendYears docs) :=
  List.sorted_insertionSort _ _

theorem trendYears_nodup (docs : List VehicleRec) : (trendYears docs).Nodup :=
  ((List.perm_insertionSort _ _).nodup_iff).mpr (List.nodup_dedup _)

theorem trendYears_mem (docs : List VehicleRec) (y : ℤ) :
    y ∈ trendYears docs ↔ y ∈ docs.map (fun d => d.model_year) := by
  unfold trendYears
  rw [(List.perm_insertionSort _ _).mem_iff]
  exact List.mem_dedup

/-- C3 (amended): whenever the trends grouping yields at least two distinct
model years, the year span is positive and the first year's count is
positive (so the guards of the spec never trigger); the overall growth rate
is `round2(((lastCount-firstCount)/firstCount/yearSpan)*100)` — but omitted
when that rate is exactly 0, which Python's truthiness test conflates with
`None`; the range improvement rate is computed analogously from the rounded
mean ranges, omitted when the first year's mean range is ≤ 0 or the rate is
exactly 0. -/
theorem c3_trends_growth_rates (docs : List VehicleRec) (t0 tn : YearTrend)
    (hlen : 2 ≤ (trendsOf (getTrends docs)).length)
    (hh : (trendsOf (getTrends docs)).head? = some t0)
    (hl : (trendsOf (getTrends docs)).getLast? = some tn) :
    0 < t0.vehicle_count ∧ t0.model_year < tn.model_year ∧
    growthOf (getTrends docs) =
      (if ((tn.vehicle_count : ℚ) - (t0.vehicle_count : ℚ)) / (t0.vehicle_count : ℚ) /
          ((tn.model_year - t0.model_year : ℤ) : ℚ) * 100 = 0 then none
       else some (pyRound2 (((tn.vehicle_count : ℚ) - (t0.vehicle_count : ℚ)) /
          (t0.vehicle_count : ℚ) / ((tn.model_year - t0.model_year : ℤ) : ℚ) * 100))) ∧
    rirOf (getTrends docs) =
      (if t0.average_electric_range ≤ 0 then none
       else if (tn.average_electric_range - t0.average_electric_range) /
          t0.average_electric_range / ((tn.model_year - t0.model_year : ℤ) : ℚ) * 100 = 0
        then none
       else some (pyRound2 ((tn.average_electric_range - t0.average_electric_range) /
          t0.average_electric_range / ((tn.model_year - t0.model_year : ℤ) : ℚ) * 100))) := by
  cases hys : trendYears docs with
  | nil =>
      exfalso
      simp only [getTrends, hys, List.map_nil, trendsOf, List.length_nil] at hlen
      omega
  | cons y0 ys =>
      have htr : trendsOf (getTrends docs) =
          mkYearTrend docs y0 :: ys.map (mkYearTrend docs) := by
        simp only [getTrends, hys, List.map_cons, trendsOf]
      have ht0 : t0 = mkYearTrend docs y0 := by
        rw [htr, List.head?_cons] at hh
        exact (Option.some.inj hh).symm
      have hys_ne : ys ≠ [] := by
        intro hcontra
        rw [htr, hcontra] at hlen
        simp at hlen
      have htn : tn = mkYearTrend docs (ys.getLastD y0) := by
        rw [htr, getLastQ] at hl
        have h2 := Option.some.inj hl
        exact h2.symm.trans (List.getLastD_map _ _ _)
      have hy0mem : y0 ∈ docs.map (fun d => d.model_year) :=
        (trendYears_mem docs y0).mp (by rw [hys]; exact List.mem_cons_self _ _)
      have hcount : 0 < (yearDocs docs y0).length := by
        rcases List.mem_map.mp hy0mem with ⟨d, hd, hdy⟩
        have hmem : d ∈ yearDocs docs y0 :=
          List.mem_filter.mpr ⟨hd, by simp [hdy]⟩
        exact List.length_pos.mpr (fun hc => by rw [hc] at hmem; cases hmem)
      have hsorted := trendYears_sorted docs
      have hnodup := trendYears_nodup docs
      rw [hys] at hsorted hnodup
      have hynmem : ys.getLastD y0 ∈ ys := getLastD_mem ys y0 hys_ne
      have hlt : y0 < ys.getLastD y0 := by
        have hle : y0 ≤ ys.getLastD y0 := (List.sorted_cons.mp hsorted).1 _ hynmem
        have hne : y0 ≠ ys.getLastD y0 :=
          fun hcontra => (List.nodup_cons.mp hnodup).1 (hcontra ▸ hynmem)
        omega
      have hrest_ne : ys.map (mkYearTrend docs) ≠ [] := by
        simpa using hys_ne
      have hlast : (ys.map (mkYearTrend docs)).getLastD (mkYearTrend docs y0) =
          mkYearTrend docs (ys.getLastD y0) := List.getLastD_map _ _ _
      refine ⟨?_, ?_, ?_, ?_⟩
      · rw [ht0]
        exact hcount
      · rw [ht0, htn]
        exact hlt
      · have hcond : (0:ℤ) < (mkYearTrend docs (ys.getLastD y0)).model_year -
            (mkYearTrend docs y0).model_year ∧
            0 < (mkYearTrend docs y0).vehicle_count := by
          refine ⟨?_, hcount⟩
          show (0:ℤ) < ys.getLastD y0 - y0
          omega
        simp only [getTrends, hys, List.map_cons, growthOf]
        rw [hlast, if_neg hrest_ne, if_pos hcond, ht0, htn]
        rfl
      · simp only [getTrends, hys, List.map_cons, rirOf]
        rw [hlast, if_neg hrest_ne]
        rw [ht0, htn]
        by_cases hr0 : 0 < (mkYearTrend docs y0).average_electric_range
        · rw [if_pos hr0, if_neg (by exact not_le.mpr hr0)]
          rfl
        · rw [if_neg hr0, if_pos (not_lt.mp hr0)]
          rfl

theorem c3_trendYears_eval : trendYears c3Docs = [2023, 2024] := by decide

theorem c3_trends_eval : trendsOf (getTrends c3Docs) =
    [mkYearTrend c3Docs 2023, mkYearTrend c3Docs 2024] := by
  simp only [getTrends, c3_trendYears_eval, List.map_cons, List.map_nil, trendsOf]

/-- C3 counterexample: a store with two model years (2023 and 2024), one
document each, has yearSpan 1 > 0 and firstCount 1 > 0, yet the overall
growth rate is omitted — the computed rate is exactly 0, which the
`round(x, 2) if x else None` truthiness test conflates with `None`. The
claim as stated demands `some (round2 0) = some 0` here. -/
theorem c3_counterexample :
    2 ≤ (trendsOf (getTrends c3Docs)).length ∧
    (trendsOf (getTrends c3Docs)).map (fun t => t.model_year) = [2023, 2024] ∧
    (trendsOf (getTrends c3Docs)).map (fun t => t.vehicle_count) = [1, 1] ∧
    growthOf (getTrends c3Docs) = none := by
  refine ⟨by rw [c3_trends_eval]; decide, by rw [c3_trends_eval]; rfl,
    by rw [c3_trends_eval]; rfl, ?_⟩
  simp only [getTrends, c3_trendYears_eval, List.map_cons, List.map_nil, growthOf]
  rw [if_neg (show ¬([mkYearTrend c3Docs 2024] : List YearTrend) = [] from by simp)]
  rw [if_pos (show (0:ℤ) < ([mkYearTrend c3Docs 2024].getLastD
        (mkYearTrend c3Docs 2023)).model_year - (mkYearTrend c3Docs 2023).model_year ∧
      0 < (mkYearTrend c3Docs 2023).vehicle_count from by
    constructor
    · show (0:ℤ) < 2024 - 2023
      omega
    · show 0 < (yearDocs c3Docs 2023).length
      decide)]
  simp only [pyTruthyRound]
  rw [if_pos ?_]
  show ((([mkYearTrend c3Docs 2024].getLastD (mkYearTrend c3Docs 2023)).vehicle_count : ℚ) -
      ((mkYearTrend c3Docs 2023).vehicle_count : ℚ)) /
      ((mkYearTrend c3Docs 2023).vehicle_count : ℚ) /
      ((([mkYearTrend c3Docs 2024].getLastD (mkYearTrend c3Docs 2023)).model_year -
        (mkYearTrend c3Docs 2023).model_year : ℤ) : ℚ) * 100 = 0
  rw [show ([mkYearTrend c3Docs 2024].getLastD (mkYearTrend c3Docs 2023)).vehicle_count = 1
      from by decide,
    show (mkYearTrend c3Docs 2023).vehicle_count = 1 from by decide]
  norm_num

/-- C3 witness: the amended theorem applies to the concrete two-year
store, with positive first-year count. -/
theorem c3_trends_growth_rates_witness :
    2 ≤ (trendsOf (getTrends c3Docs)).length ∧
    (trendsOf (getTrends c3Docs)).head? = some (mkYearTrend c3Docs 2023) ∧
    (trendsOf (getTrends c3Docs)).getLast? = some (mkYearTrend c3Docs 2024) ∧
    0 < (mkYearTrend c3Docs 2023).vehicle_count := by
  have h1 : 2 ≤ (trendsOf (getTrends c3Docs)).length := by rw [c3_trends_eval]; decide
  have h2 : (trendsOf (getTrends c3Docs)).head? = some (mkYearTrend c3Docs 2023) := by
    rw [c3_trends_eval]
    rfl
  have h3 : (trendsOf (getTrends c3Docs)).getLast? = some (mkYearTrend c3Docs 2024) := by
    rw [c3_trends_eval]
    rfl
  exact ⟨h1, h2, h3,
    (c3_trends_growth_rates c3Docs (mkYearTrend c3Docs 2023) (mkYearTrend c3Docs 2024)
      h1 h2 h3).1⟩

theorem pyTruthyRound_shape (o : Option ℚ) :
    pyTruthyRound o = none ∨ ∃ x : ℚ, pyTruthyRound o = some (pyRound2 x) := by
  cases o with
  | none => exact Or.inl rfl
  | some q =>
      by_cases hq : q = 0
      · exact Or.inl (by simp only [pyTruthyRound]; rw [if_pos hq])
      · exact Or.inr ⟨q, by simp only [pyTruthyRound]; rw [if_neg hq]⟩

/-- C7 (amended): every average and percentage produced by the five query
operations is rounded to two decimal places with round-half-to-even
(Python's `round`) — not half-up: the summary mean range, the per-model
averages, the per-group analyze averages, the per-year trend averages and
BEV/PHEV percentages, and the two trend rates are all images of
`pyRound2` applied to the exact pre-rounding value. -/
theorem c7_round_half_even :
    (∀ docs : List VehicleRec,
      (getSummary docs).average_electric_range = 0 ∨
      (getSummary docs).average_electric_range = pyRound2 (exactMeanPosRange docs)) ∧
    (∀ (docs : List VehicleRec) (make : String) (resp : MakeModelsResponse),
      getModelsByMake docs make = .ok resp → ∀ m ∈ resp.models,
      m.average_electric_range =
        pyRound2 (ratMean ((modelGroupDocs docs make m.model).map
          (fun d => (d.electric_range : ℚ))))) ∧
    (∀ (docs : List VehicleRec) (f : AnalyzeFilters) (gb : GroupField)
        (resp : AnalyzeResponse),
      analyzeVehicles docs f gb = .ok resp → ∀ g ∈ resp.groups,
      ∃ k : GroupKey, g = mkGroupStat docs f gb k ∧
        g.average_electric_range =
          pyRound2 (ratMean ((analyzeGroupDocs docs f gb k).map
            (fun d => (d.electric_range : ℚ))))) ∧
    (∀ docs : List VehicleRec, ∀ t ∈ trendsOf (getTrends docs),
      t.average_electric_range =
        pyRound2 (ratMean ((yearDocs docs t.model_year).map
          (fun d => (d.electric_range : ℚ)))) ∧
      t.bev_percentage = pyRound2 (if 0 < t.bev_count + t.phev_count then
        (t.bev_count : ℚ) / ((t.bev_count + t.phev_count : ℕ) : ℚ) * 100 else 0) ∧
      t.phev_percentage = pyRound2 (if 0 < t.bev_count + t.phev_count then
        (t.phev_count : ℚ) / ((t.bev_count + t.phev_count : ℕ) : ℚ) * 100 else 0)) ∧
    (∀ docs : List VehicleRec, growthOf (getTrends docs) = none ∨
      ∃ x : ℚ, growthOf (getTrends docs) = some (pyRound2 x)) ∧
    (∀ docs : List VehicleRec, rirOf (getTrends docs) = none ∨
      ∃ x : ℚ, rirOf (getTrends docs) = some (pyRound2 x)) := by
  refine ⟨?_, ?_, ?_, ?_, ?_, ?_⟩
  · intro docs
    by_cases hp : posRangeDocs docs = []
    · left
      simp only [getSummary]
      rw [if_pos hp]
    · right
      simp only [getSummary]
      rw [if_neg hp]
  · intro docs make resp hok m hm
    have hmodels : resp.models = modelResults docs make := by
      unfold getModelsByMake at hok
      cases hr : modelResults docs make with
      | nil =>
          rw [hr] at hok
          cases hok
      | cons r0 rest =>
          rw [hr] at hok
          rw [← Except.ok.inj hok]
    rw [hmodels] at hm
    unfold modelResults at hm
    have hm2 : m ∈ (firstOccDedup ((makeDocs docs make).map (fun d => d.model))).map
        (mkModelStat docs make) :=
      ((List.perm_insertionSort _ _).mem_iff).mp hm
    rcases List.mem_map.mp hm2 with ⟨k, hk, rfl⟩
    rfl
  · intro docs f gb resp hok g hg
    have hgroups : resp.groups = analyzeResults docs f gb := by
      unfold analyzeVehicles at hok
      cases hr : analyzeResults docs f gb with
      | nil =>
          rw [hr] at hok
          cases hok
      | cons r0 rest =>
          rw [hr] at hok
          rw [← Except.ok.inj hok]
    rw [hgroups] at hg
    unfold analyzeResults at hg
    have hg2 : g ∈ (firstOccDedup ((analyzeDocs docs f).map (groupKeyOf gb))).map
        (mkGroupStat docs f gb) :=
      ((List.perm_insertionSort _ _).mem_iff).mp hg
    rcases List.mem_map.mp hg2 with ⟨k, hk, rfl⟩
    exact ⟨k, rfl, rfl⟩
  · intro docs t ht
    cases hys : trendYears docs with
    | nil =>
        rw [show trendsOf (getTrends docs) = [] from by
          simp only [getTrends, hys, List.map_nil, trendsOf]] at ht
        cases ht
    | cons y0 ys =>
        rw [show trendsOf (getTrends docs) =
            (y0 :: ys).map (mkYearTrend docs) from by
          simp only [getTrends, hys, List.map_cons, trendsOf]] at ht
        rcases List.mem_map.mp ht with ⟨y, hy, rfl⟩
        exact ⟨rfl, rfl, rfl⟩
  · intro docs
    cases hm : (trendYears docs).map (mkYearTrend docs) with
    | nil =>
        left
        simp only [getTrends, hm, growthOf]
    | cons t0 rest =>
        have : growthOf (getTrends docs) = pyTruthyRound
            (if rest = [] then none
             else if 0 < (rest.getLastD t0).model_year - t0.model_year ∧
                0 < t0.vehicle_count then
               some ((((rest.getLastD t0).vehicle_count : ℚ) - (t0.vehicle_count : ℚ)) /
                 (t0.vehicle_count : ℚ) /
                 (((rest.getLastD t0).model_year - t0.model_year : ℤ) : ℚ) * 100)
             else none) := by
          simp only [getTrends, hm, growthOf]
        rw [this]
        exact pyTruthyRound_shape _
  · intro docs
    cases hm : (trendYears docs).map (mkYearTrend docs) with
    | nil =>
        left
        simp only [getTrends, hm, rirOf]
    | cons t0 rest =>
        have : rirOf (getTrends docs) = pyTruthyRound
            (if rest = [] then none
             else if 0 < t0.average_electric_range then
               some (((rest.getLastD t0).average_electric_range -
                 t0.average_electric_range) / t0.average_electric_range /
                 (((rest.getLastD t0).model_year - t0.model_year : ℤ) : ℚ) * 100)
             else none) := by
          simp only [getTrends, hm, rirOf]
        rw [this]
        exact pyTruthyRound_shape _

theorem c7_mean_eval : exactMeanPosRange c7Docs = 9 / 8 := by
  unfold exactMeanPosRange ratMean
  rw [show posRangeDocs c7Docs = c7Docs from by decide]
  have h1 : c7Docs.map (fun d => (d.electric_range : ℚ)) =
      (c7Docs.map (fun d => d.electric_range)).map (fun n : ℤ => (n : ℚ)) := by
    rw [List.map_map]
    rfl
  have h2 : c7Docs.map (fun d => d.electric_range) = ([1, 1, 1, 1, 1, 1, 1, 2] : List ℤ) := by
    decide
  rw [h1, h2]
  norm_num

theorem c7_halfEven_tie : pyRound2 (9 / 8 : ℚ) = 112 / 100 := by
  unfold pyRound2
  have h1 : halfEvenRound ((9 / 8 : ℚ) * 100) = 112 := by
    simp only [halfEvenRound]
    rw [ratFloor_eq]
    rw [show (9 / 8 : ℚ) * 100 = 225 / 2 from by norm_num]
    rw [show ⌊(225 / 2 : ℚ)⌋ = 112 from by
      rw [Int.floor_eq_iff]
      constructor <;> norm_num]
    rw [if_neg (by norm_num), if_neg (by norm_num), if_pos (by norm_num)]
  rw [h1]
  norm_num

theorem c7_halfUp_tie : roundHalfUpTwo (9 / 8 : ℚ) = 113 / 100 := by
  unfold roundHalfUpTwo
  rw [ratFloor_eq]
  rw [show (9 / 8 : ℚ) * 100 + 1 / 2 = 113 from by norm_num]
  rw [show ⌊(113 : ℚ)⌋ = 113 from by
    rw [Int.floor_eq_iff]
    constructor <;> norm_num]
  norm_num

/-- C7 counterexample: on eight documents whose positive ranges average to
1.125 (an exact tie at two decimal places), the summary operation reports
1.12 — the half-even rounding of Python's `round` — while half-up rounding
of the exact mean gives 1.13, so the produced average is not rounded
half-up. -/
theorem c7_counterexample :
    (getSummary c7Docs).average_electric_range ≠
      roundHalfUpTwo (exactMeanPosRange c7Docs) ∧
    (getSummary c7Docs).average_electric_range = pyRound2 (exactMeanPosRange c7Docs) := by
  have havg : (getSummary c7Docs).average_electric_range =
      pyRound2 (exactMeanPosRange c7Docs) := by
    simp only [getSummary]
    rw [if_neg (show ¬posRangeDocs c7Docs = [] from by decide)]
  refine ⟨?_, havg⟩
  rw [havg, c7_mean_eval, c7_halfEven_tie, c7_halfUp_tie]
  norm_num

theorem c7_models_eval : getModelsByMake c5Docs "Tesla" = .ok c7MResp := by
  unfold getModelsByMake
  rw [show modelResults c5Docs "Tesla" = [mkModelStat c5Docs "Tesla" "MODEL S"] from by
    unfold modelResults
    rw [show (makeDocs c5Docs "Tesla").map (fun d => d.model) = ["MODEL S"] from by decide]
    rw [show firstOccDedup ["MODEL S"] = ["MODEL S"] from by simp [firstOccDedup]]
    rfl]
  rfl

/-- C7 witness: the amended theorem applied to concrete stores — the
counterexample store's summary average, the one-document make query and
analyze group, and the two-year trends. -/
theorem c7_round_half_even_witness :
    ((getSummary c7Docs).average_electric_range = 0 ∨
      (getSummary c7Docs).average_electric_range = pyRound2 (exactMeanPosRange c7Docs)) ∧
    (mkModelStat c5Docs "Tesla" "MODEL S").average_electric_range =
      pyRound2 (ratMean ((modelGroupDocs c5Docs "Tesla"
        (mkModelStat c5Docs "Tesla" "MODEL S").model).map
          (fun d => (d.electric_range : ℚ)))) ∧
    (∃ k : GroupKey, mkGroupStat c5Docs emptyFilters GroupField.make (GroupKey.kStr "TESLA") =
        mkGroupStat c5Docs emptyFilters GroupField.make k ∧
      (mkGroupStat c5Docs emptyFilters GroupField.make
          (GroupKey.kStr "TESLA")).average_electric_range =
        pyRound2 (ratMean ((analyzeGroupDocs c5Docs emptyFilters GroupField.make k).map
          (fun d => (d.electric_range : ℚ))))) ∧
    ((mkYearTrend c3Docs 2023).average_electric_range =
        pyRound2 (ratMean ((yearDocs c3Docs (mkYearTrend c3Docs 2023).model_year).map
          (fun d => (d.electric_range : ℚ)))) ∧
      (mkYearTrend c3Docs 2023).bev_percentage = pyRound2
        (if 0 < (mkYearTrend c3Docs 2023).bev_count + (mkYearTrend c3Docs 2023).phev_count then
          ((mkYearTrend c3Docs 2023).bev_count : ℚ) /
            (((mkYearTrend c3Docs 2023).bev_count +
              (mkYearTrend c3Docs 2023).phev_count : ℕ) : ℚ) * 100 else 0) ∧
      (mkYearTrend c3Docs 2023).phev_percentage = pyRound2
        (if 0 < (mkYearTrend c3Docs 2023).bev_count + (mkYearTrend c3Docs 2023).phev_count then
          ((mkYearTrend c3Docs 2023).phev_count : ℚ) /
            (((mkYearTrend c3Docs 2023).bev_count +
              (mkYearTrend c3Docs 2023).phev_count : ℕ) : ℚ) * 100 else 0)) ∧
    (growthOf (getTrends c3Docs) = none ∨
      ∃ x : ℚ, growthOf (getTrends c3Docs) = some (pyRound2 x)) ∧
    (rirOf (getTrends c3Docs) = none ∨
      ∃ x : ℚ, rirOf (getTrends c3Docs) = some (pyRound2 x)) :=
  ⟨c7_round_half_even.1 c7Docs,
   c7_round_half_even.2.1 c5Docs "Tesla" c7MResp c7_models_eval _
     (List.mem_singleton.mpr rfl),
   c7_round_half_even.2.2.1 c5Docs emptyFilters GroupField.make c10Resp c10_analyze_eval _
     (List.mem_singleton.mpr rfl),
   c7_round_half_even.2.2.2.1 c3Docs (mkYearTrend c3Docs 2023)
     (by rw [c3_trends_eval]; exact List.mem_cons_self _ _),
   c7_round_half_even.2.2.2.2.1 c3Docs,
   c7_round_half_even.2.2.2.2.2 c3Docs⟩

end UnifiedAI
